import Mathlib

/-!
# Verification of the aseprite spritesheet-metadata codec

A shallow embedding of the `aseprite` crate (`src/lib.rs`): the data model
(`Rect`, `Point`, `Dimensions`, `Color`, `FrameData`, `Frame`, `Direction`,
`Frametag`, `BlendMode`, `Layer`, `Slice`, `SliceKey`, `Metadata`,
`SpritesheetData`), the hand-written `Color` codec, the polymorphic
`deserialize_frames` reader, and the serde-derived JSON (de)serializers for
every struct and enum, modelled over an explicit JSON value tree.

Modelling conventions:
* JSON documents are `Json` trees (objects are ordered association lists,
  exactly the event stream serde sees; duplicate keys are therefore
  representable and handled the way serde-derive handles them).
* JSON numbers are modelled as integers (no field of this crate is a float).
* Rust `u8` / `u32` are `Fin 256` / `Fin (2 ^ 32)`; `usize` is 64-bit.
* Fallible deserialization returns `Except DError _`; a Rust panic is the
  distinguished outcome `DError.panicked`, kept apart from serde errors.
* serde-derived struct deserializers are modelled in their map (JSON object)
  form: single pass over the entries, unknown keys skipped, duplicate known
  keys rejected, missing mandatory fields rejected at the end, `Option`
  fields falling back to `none` and `#[serde(default)]` lists to `[]`.
-/

namespace Aseprite

/-- Rust `u8`. -/
abbrev U8 := Fin 256

/-- Rust `u32`. -/
abbrev U32 := Fin (2 ^ 32)

/-- A fully-materialized JSON value tree, the input/output of the codec.
Objects are ordered lists of key/value entries, as produced by a streaming
JSON parser. -/
inductive Json where
  | null
  | bool (b : Bool)
  | num (n : Int)
  | str (s : String)
  | arr (items : List Json)
  | obj (fields : List (String × Json))

/-- Which color channel a hex-pair parse failure happened in. -/
inductive Channel where
  | red
  | green
  | blue
  | alpha
deriving DecidableEq

/-- The color-codec validation failures named by the spec. -/
inductive ColorError where
  | missingHash
  | wrongLength
  | nonHexDigit (channel : Channel)
deriving DecidableEq

/-- Decode failures.  `panicked` models a Rust panic (out-of-bounds string
slicing); everything else is a serde error value. -/
inductive DError where
  | malformedShape
  | typeMismatch
  | missingRequiredField (field : String)
  | duplicateField (field : String)
  | unknownEnumVariant
  | invalidColor (e : ColorError)
  | panicked
deriving DecidableEq

/-- Decidable equality of decode results. -/
instance {ε α : Type} [DecidableEq ε] [DecidableEq α] : DecidableEq (Except ε α) := fun x y =>
  match x, y with
  | .ok a, .ok b =>
    if h : a = b then isTrue (by rw [h]) else isFalse (by intro hh; cases hh; exact h rfl)
  | .ok _, .error _ => isFalse (by intro hh; cases hh)
  | .error _, .ok _ => isFalse (by intro hh; cases hh)
  | .error e, .error f =>
    if h : e = f then isTrue (by rw [h]) else isFalse (by intro hh; cases hh; exact h rfl)

/-- Result of a fallible decode step. -/
abbrev DResult (α : Type) := Except DError α

/-- `Rect` (lib.rs): 2D rectangle with a position and a size. -/
structure Rect where
  x : U32
  y : U32
  w : U32
  h : U32
deriving DecidableEq

/-- `Point` (lib.rs): 2D point. -/
structure Point where
  x : U32
  y : U32
deriving DecidableEq

/-- `Dimensions` (lib.rs): 2D size. -/
structure Dimensions where
  w : U32
  h : U32
deriving DecidableEq

/-- `Color` (lib.rs): RGBA color, one byte per channel. -/
structure Color where
  r : U8
  g : U8
  b : U8
  a : U8
deriving DecidableEq

/-- `FrameData` (lib.rs): per-frame geometry and timing. -/
structure FrameData where
  frame : Rect
  rotated : Bool
  trimmed : Bool
  sprite_source_size : Rect
  source_size : Dimensions
  duration : U32
deriving DecidableEq

/-- `Frame` (lib.rs): a named frame; `data` is `#[serde(flatten)]`ed. -/
structure Frame where
  filename : String
  data : FrameData
deriving DecidableEq

/-- `Direction` (lib.rs): frame animation direction. -/
inductive Direction where
  | forward
  | reverse
  | pingpong
deriving DecidableEq

/-- `Frametag` (lib.rs): tagged frame group.  (`from` and `to` are Lean
keywords, hence the trailing underscores.) -/
structure Frametag where
  name : String
  from_ : U32
  to_ : U32
  direction : Direction
deriving DecidableEq

/-- `BlendMode` (lib.rs): layer blend modes, 19 variants,
`#[derive(Default)]` with `Normal` as the `#[default]` variant. -/
inductive BlendMode where
  | normal
  | multiply
  | screen
  | overlay
  | darken
  | lighten
  | colorDodge
  | colorBurn
  | hardLight
  | softLight
  | difference
  | exclusion
  | hslHue
  | hslSaturation
  | hslColor
  | hslLuminosity
  | addition
  | subtract
  | divide
deriving DecidableEq

/-- `BlendMode::default()` is `Normal` (`#[derive(Default)]` + `#[default]`). -/
instance : Inhabited BlendMode := ⟨BlendMode.normal⟩

/-- `Layer` (lib.rs): sprite layer or layer group. -/
structure Layer where
  name : String
  group : Option String
  opacity : Option U32
  blend_mode : Option BlendMode
  color : Option Color
  data : Option String
deriving DecidableEq

/-- `SliceKey` (lib.rs): slice rectangle at a specific frame. -/
structure SliceKey where
  frame : U32
  bounds : Rect
  pivot : Option Point
  center : Option Rect
deriving DecidableEq

/-- `Slice` (lib.rs): slice within the sprite. -/
structure Slice where
  name : String
  color : Color
  keys : List SliceKey
  data : Option String
deriving DecidableEq

/-- `Metadata` (lib.rs): sprite sheet metadata. -/
structure Metadata where
  app : String
  version : String
  format : String
  size : Dimensions
  scale : String
  image : Option String
  frame_tags : List Frametag
  layers : List Layer
  slices : List Slice
deriving DecidableEq

/-- `SpritesheetData` (lib.rs): root type of an Aseprite JSON file. -/
structure SpritesheetData where
  frames : List Frame
  meta : Metadata
deriving DecidableEq

/-! ## Color codec (`impl Deserialize for Color`, `impl Serialize for Color`)

Rust strings are UTF-8 byte sequences: `s.len()` counts bytes and `&s[i..j]`
slices bytes, panicking when an index is out of range or not on a character
boundary.  The decoder is therefore modelled at the byte level: a `String`
is first UTF-8-encoded (`strBytes`), and all slicing, length and digit tests
run on the byte list, exactly as the source does. -/

/-- The UTF-8 encoding of one character, as stored in a Rust `str`. -/
def utf8Bytes (c : Char) : List Nat :=
  let n := c.toNat
  if n < 128 then [n]
  else if n < 2048 then [192 + n / 64, 128 + n % 64]
  else if n < 65536 then [224 + n / 4096, 128 + n / 64 % 64, 128 + n % 64]
  else [240 + n / 262144, 128 + n / 4096 % 64, 128 + n / 64 % 64, 128 + n % 64]

/-- UTF-8 encoding of a character list. -/
def utf8Encode : List Char → List Nat
  | [] => []
  | c :: cs => utf8Bytes c ++ utf8Encode cs

/-- The byte content of a Rust `String`. -/
def strBytes (s : String) : List Nat := utf8Encode s.data

/-- A UTF-8 continuation byte (`0x80..=0xBF`). -/
def isContinuation (b : Nat) : Bool := decide (128 ≤ b ∧ b < 192)

/-- Rust `str::is_char_boundary`: start, end, or a non-continuation byte. -/
def isCharBound (bs : List Nat) (i : Nat) : Bool :=
  decide (i = 0) || decide (i = bs.length) ||
    (match bs.get? i with
     | some b => !isContinuation b
     | none => false)

/-- Rust string slicing `&s[i..j]` on the byte content: `none` models the
panic on a reversed range, an out-of-range index, or a non-boundary index. -/
def byteSlice (bs : List Nat) (i j : Nat) : Option (List Nat) :=
  if i ≤ j ∧ isCharBound bs i ∧ isCharBound bs j then some ((bs.drop i).take (j - i))
  else none

/-- `char::to_digit(16)` applied to one byte (either case accepted). -/
def hexDigitVal (b : Nat) : Option Nat :=
  if 48 ≤ b ∧ b ≤ 57 then some (b - 48)
  else if 97 ≤ b ∧ b ≤ 102 then some (b - 97 + 10)
  else if 65 ≤ b ∧ b ≤ 70 then some (b - 65 + 10)
  else none

/-- Digit-accumulation loop of `u8::from_str_radix(_, 16)`, including the
checked-arithmetic overflow test of the standard library. -/
def parseHexDigits : List Nat → U8 → Option U8
  | [], acc => some acc
  | b :: bs, acc =>
    match hexDigitVal b with
    | none => none
    | some d =>
      if h : 255 < acc.val * 16 + d then none
      else parseHexDigits bs ⟨acc.val * 16 + d, by omega⟩

/-- `u8::from_str_radix(s, 16)` on the slice's bytes: empty input fails; a
single leading `+` (byte 43) is consumed (a bare sign fails); every
remaining byte must be a hex digit and the value must fit in a byte. -/
def fromStrRadix16 (s : List Nat) : Option U8 :=
  match s with
  | [] => none
  | b :: rest =>
    let digits := if b = 43 then rest else s
    match digits with
    | [] => none
    | _ => parseHexDigits digits 0

/-- `Color::deserialize` (lib.rs:80-99) applied to the byte content of the
already-extracted JSON string.  `starts_with('#')` is the first byte being
35; the length test is the source's `!s.len() == 7`: `!` binds to
`s.len()`, so the branch is taken iff the bitwise complement of the 64-bit
byte length equals 7; slice panics become `DError.panicked`. -/
def Color.deserializeBytes (cs : List Nat) : DResult Color :=
  if cs.head? ≠ some 35 then .error (.invalidColor .missingHash)
  else if 2 ^ 64 - 1 - cs.length % 2 ^ 64 = 7 then .error (.invalidColor .wrongLength)
  else
    match byteSlice cs 1 3 with
    | none => .error .panicked
    | some rs =>
      match fromStrRadix16 rs with
      | none => .error (.invalidColor (.nonHexDigit .red))
      | some r =>
        match byteSlice cs 3 5 with
        | none => .error .panicked
        | some gs =>
          match fromStrRadix16 gs with
          | none => .error (.invalidColor (.nonHexDigit .green))
          | some g =>
            match byteSlice cs 5 7 with
            | none => .error .panicked
            | some bs =>
              match fromStrRadix16 bs with
              | none => .error (.invalidColor (.nonHexDigit .blue))
              | some b =>
                match byteSlice cs 7 9 with
                | none => .error .panicked
                | some as_ =>
                  match fromStrRadix16 as_ with
                  | none => .error (.invalidColor (.nonHexDigit .alpha))
                  | some a => .ok ⟨r, g, b, a⟩

/-- `Color::deserialize` on a `String`: run the byte-level decoder on the
string's UTF-8 content. -/
def Color.deserialize (s : String) : DResult Color :=
  Color.deserializeBytes (strBytes s)

/-- The sixteen lowercase hex digits, in value order. -/
def hexDigits : List Char := "0123456789abcdef".data

/-- One lowercase hex digit (for values below 16). -/
def hexChar (n : Nat) : Char := hexDigits.getD n '0'

/-- `{:02x}` formatting of one byte: two lowercase, zero-padded hex digits. -/
def byteToHex (n : U8) : List Char := [hexChar (n.val / 16), hexChar (n.val % 16)]

/-- `impl Serialize for Color` via `impl Debug for Color` (lib.rs:67-78):
`format!("#{:02x}{:02x}{:02x}{:02x}", r, g, b, a)`. -/
def Color.serialize (c : Color) : String :=
  ⟨'#' :: (byteToHex c.r ++ byteToHex c.g ++ byteToHex c.b ++ byteToHex c.a)⟩

/-! ## Generic serde machinery

serde-derive deserializes a struct from a JSON object by a single pass over
the entries: each known key stores its decoded value (rejecting duplicates),
unknown keys are consumed by `IgnoredAny` (never failing), and after the
pass each mandatory field must have been seen.  A missing field of type
`Option _` becomes `none` (via `serde::__private::de::missing_field`, whose
deserializer answers only `deserialize_option`); a missing
`#[serde(default)]` list becomes `[]`. -/

/-- One pass over the entries of a JSON object, threading decoder state. -/
def foldFields (step : σ → String × Json → DResult σ) : σ → List (String × Json) → DResult σ
  | st, [] => .ok st
  | st, kv :: rest =>
    match step st kv with
    | .error e => .error e
    | .ok st' => foldFields step st' rest

/-- Store the decoded value of a known field, rejecting a duplicate key. -/
def setField (cur : Option α) (name : String) (f : Json → DResult α) (v : Json) :
    DResult (Option α) :=
  match cur with
  | some _ => .error (.duplicateField name)
  | none => (f v).map some

/-- End-of-object check for a mandatory field. -/
def requireField (name : String) : Option α → DResult α
  | some a => .ok a
  | none => .error (.missingRequiredField name)

/-- End-of-object fallback for an `Option _` field: absent means `none`. -/
def optionalField : Option (Option α) → Option α
  | some v => v
  | none => none

/-- End-of-object fallback for a `#[serde(default)]` list field. -/
def defaultListField : Option (List α) → List α
  | some v => v
  | none => []

/-- A JSON string. -/
def decodeStr : Json → DResult String
  | .str s => .ok s
  | _ => .error .typeMismatch

/-- A JSON boolean. -/
def decodeBool : Json → DResult Bool
  | .bool b => .ok b
  | _ => .error .typeMismatch

/-- A Rust `u32`: a JSON integer in `[0, 2^32)`. -/
def decodeU32 : Json → DResult U32
  | .num n => if h : 0 ≤ n ∧ n < 2 ^ 32 then .ok ⟨n.toNat, by omega⟩ else .error .typeMismatch
  | _ => .error .typeMismatch

/-- `Option<T>`: JSON `null` is `none`, anything else decodes as `T`. -/
def decodeOpt (f : Json → DResult α) : Json → DResult (Option α)
  | .null => .ok none
  | j => (f j).map some

/-- Decode the elements of a list one by one; the first failure aborts. -/
def mapMExcept (f : α → DResult β) : List α → DResult (List β)
  | [] => .ok []
  | a :: rest =>
    match f a with
    | .error e => .error e
    | .ok b => (mapMExcept f rest).map (b :: ·)

/-- `Vec<T>`: a JSON array, elements decoded in order. -/
def decodeVec (f : Json → DResult α) : Json → DResult (List α)
  | .arr xs => mapMExcept f xs
  | _ => .error .typeMismatch

/-! ## Enum deserializers (`Direction`, `BlendMode`) -/

/-- `#[serde(rename_all = "camelCase")]` names of `Direction`'s variants. -/
def Direction.name : Direction → String
  | .forward => "forward"
  | .reverse => "reverse"
  | .pingpong => "pingpong"

/-- Derived `Deserialize` for `Direction`: a string matching one of the
variant names; any other string is an unknown variant. -/
def Direction.fromJson : Json → DResult Direction
  | .str s =>
    if s = "forward" then .ok .forward
    else if s = "reverse" then .ok .reverse
    else if s = "pingpong" then .ok .pingpong
    else .error .unknownEnumVariant
  | _ => .error .typeMismatch

/-- `#[serde(rename_all = "snake_case")]` names of `BlendMode`'s variants,
in declaration order. -/
def blendModePairs : List (String × BlendMode) :=
  [("normal", .normal), ("multiply", .multiply), ("screen", .screen),
   ("overlay", .overlay), ("darken", .darken), ("lighten", .lighten),
   ("color_dodge", .colorDodge), ("color_burn", .colorBurn),
   ("hard_light", .hardLight), ("soft_light", .softLight),
   ("difference", .difference), ("exclusion", .exclusion),
   ("hsl_hue", .hslHue), ("hsl_saturation", .hslSaturation),
   ("hsl_color", .hslColor), ("hsl_luminosity", .hslLuminosity),
   ("addition", .addition), ("subtract", .subtract), ("divide", .divide)]

/-- The renamed variant name of one `BlendMode`. -/
def BlendMode.name : BlendMode → String
  | .normal => "normal"
  | .multiply => "multiply"
  | .screen => "screen"
  | .overlay => "overlay"
  | .darken => "darken"
  | .lighten => "lighten"
  | .colorDodge => "color_dodge"
  | .colorBurn => "color_burn"
  | .hardLight => "hard_light"
  | .softLight => "soft_light"
  | .difference => "difference"
  | .exclusion => "exclusion"
  | .hslHue => "hsl_hue"
  | .hslSaturation => "hsl_saturation"
  | .hslColor => "hsl_color"
  | .hslLuminosity => "hsl_luminosity"
  | .addition => "addition"
  | .subtract => "subtract"
  | .divide => "divide"

/-- Derived `Deserialize` for `BlendMode`: match the string against the
variant names in declaration order. -/
def BlendMode.fromJson : Json → DResult BlendMode
  | .str s =>
    match (blendModePairs.find? (fun p => p.1 = s)).map (·.2) with
    | some b => .ok b
    | none => .error .unknownEnumVariant
  | _ => .error .typeMismatch

/-- `Color` deserialized from JSON: serde first extracts a string
(`let s : String = Deserialize::deserialize(deserializer)?`), then
`Color.deserialize` validates it. -/
def Color.fromJson : Json → DResult Color
  | .str s => Color.deserialize s
  | _ => .error .typeMismatch

/-! ## Struct deserializers (derived `Deserialize` impls) -/

/-- In-progress state for `Rect`. -/
structure RectP where
  x : Option U32
  y : Option U32
  w : Option U32
  h : Option U32

/-- One map entry of a `Rect` object. -/
def Rect.step (st : RectP) (kv : String × Json) : DResult RectP :=
  if kv.1 = "x" then (setField st.x "x" decodeU32 kv.2).map fun o => { st with x := o }
  else if kv.1 = "y" then (setField st.y "y" decodeU32 kv.2).map fun o => { st with y := o }
  else if kv.1 = "w" then (setField st.w "w" decodeU32 kv.2).map fun o => { st with w := o }
  else if kv.1 = "h" then (setField st.h "h" decodeU32 kv.2).map fun o => { st with h := o }
  else .ok st

/-- Decode a `Rect` from the entries of a JSON object. -/
def Rect.fromFields (fs : List (String × Json)) : DResult Rect := do
  let st ← foldFields Rect.step ⟨none, none, none, none⟩ fs
  let x ← requireField "x" st.x
  let y ← requireField "y" st.y
  let w ← requireField "w" st.w
  let h ← requireField "h" st.h
  return ⟨x, y, w, h⟩

/-- Derived `Deserialize` for `Rect` (map form). -/
def Rect.fromJson : Json → DResult Rect
  | .obj fs => Rect.fromFields fs
  | _ => .error .typeMismatch

/-- In-progress state for `Point`. -/
structure PointP where
  x : Option U32
  y : Option U32

/-- One map entry of a `Point` object. -/
def Point.step (st : PointP) (kv : String × Json) : DResult PointP :=
  if kv.1 = "x" then (setField st.x "x" decodeU32 kv.2).map fun o => { st with x := o }
  else if kv.1 = "y" then (setField st.y "y" decodeU32 kv.2).map fun o => { st with y := o }
  else .ok st

/-- Decode a `Point` from the entries of a JSON object. -/
def Point.fromFields (fs : List (String × Json)) : DResult Point := do
  let st ← foldFields Point.step ⟨none, none⟩ fs
  let x ← requireField "x" st.x
  let y ← requireField "y" st.y
  return ⟨x, y⟩

/-- Derived `Deserialize` for `Point` (map form). -/
def Point.fromJson : Json → DResult Point
  | .obj fs => Point.fromFields fs
  | _ => .error .typeMismatch

/-- In-progress state for `Dimensions`. -/
structure DimensionsP where
  w : Option U32
  h : Option U32

/-- One map entry of a `Dimensions` object. -/
def Dimensions.step (st : DimensionsP) (kv : String × Json) : DResult DimensionsP :=
  if kv.1 = "w" then (setField st.w "w" decodeU32 kv.2).map fun o => { st with w := o }
  else if kv.1 = "h" then (setField st.h "h" decodeU32 kv.2).map fun o => { st with h := o }
  else .ok st

/-- Decode a `Dimensions` from the entries of a JSON object. -/
def Dimensions.fromFields (fs : List (String × Json)) : DResult Dimensions := do
  let st ← foldFields Dimensions.step ⟨none, none⟩ fs
  let w ← requireField "w" st.w
  let h ← requireField "h" st.h
  return ⟨w, h⟩

/-- Derived `Deserialize` for `Dimensions` (map form). -/
def Dimensions.fromJson : Json → DResult Dimensions
  | .obj fs => Dimensions.fromFields fs
  | _ => .error .typeMismatch

/-- In-progress state for `FrameData` (keys renamed to camelCase). -/
structure FrameDataP where
  frame : Option Rect
  rotated : Option Bool
  trimmed : Option Bool
  sprite_source_size : Option Rect
  source_size : Option Dimensions
  duration : Option U32

/-- One map entry of a `FrameData` object. -/
def FrameData.step (st : FrameDataP) (kv : String × Json) : DResult FrameDataP :=
  if kv.1 = "frame" then
    (setField st.frame "frame" Rect.fromJson kv.2).map fun o => { st with frame := o }
  else if kv.1 = "rotated" then
    (setField st.rotated "rotated" decodeBool kv.2).map fun o => { st with rotated := o }
  else if kv.1 = "trimmed" then
    (setField st.trimmed "trimmed" decodeBool kv.2).map fun o => { st with trimmed := o }
  else if kv.1 = "spriteSourceSize" then
    (setField st.sprite_source_size "spriteSourceSize" Rect.fromJson kv.2).map
      fun o => { st with sprite_source_size := o }
  else if kv.1 = "sourceSize" then
    (setField st.source_size "sourceSize" Dimensions.fromJson kv.2).map
      fun o => { st with source_size := o }
  else if kv.1 = "duration" then
    (setField st.duration "duration" decodeU32 kv.2).map fun o => { st with duration := o }
  else .ok st

/-- Decode a `FrameData` from the entries of a JSON object (also the form
used through `#[serde(flatten)]`, where the entries are the buffered
non-`filename` entries of the enclosing `Frame` object). -/
def FrameData.fromFields (fs : List (String × Json)) : DResult FrameData := do
  let st ← foldFields FrameData.step ⟨none, none, none, none, none, none⟩ fs
  let frame ← requireField "frame" st.frame
  let rotated ← requireField "rotated" st.rotated
  let trimmed ← requireField "trimmed" st.trimmed
  let sss ← requireField "spriteSourceSize" st.sprite_source_size
  let ss ← requireField "sourceSize" st.source_size
  let duration ← requireField "duration" st.duration
  return ⟨frame, rotated, trimmed, sss, ss, duration⟩

/-- Derived `Deserialize` for `FrameData` (map form). -/
def FrameData.fromJson : Json → DResult FrameData
  | .obj fs => FrameData.fromFields fs
  | _ => .error .typeMismatch

/-- In-progress state for `Frame`: the `filename` slot plus the buffer of
entries handed to the flattened `FrameData` afterwards. -/
structure FrameP where
  filename : Option String
  buffer : List (String × Json)

/-- One map entry of a `Frame` object: `filename` is consumed directly, every
other entry is buffered (in order) for the flattened `FrameData`. -/
def Frame.step (st : FrameP) (kv : String × Json) : DResult FrameP :=
  if kv.1 = "filename" then
    (setField st.filename "filename" decodeStr kv.2).map fun o => { st with filename := o }
  else .ok { st with buffer := st.buffer ++ [kv] }

/-- Derived `Deserialize` for `Frame`: because of `#[serde(flatten)]` the
input must be a map; the buffered entries feed `FrameData`. -/
def Frame.fromJson : Json → DResult Frame
  | .obj fs => do
    let st ← foldFields Frame.step ⟨none, []⟩ fs
    let filename ← requireField "filename" st.filename
    let data ← FrameData.fromFields st.buffer
    return ⟨filename, data⟩
  | _ => .error .typeMismatch

/-- `deserialize_frames` (lib.rs:149-184): the `frames` value may be a JSON
array of `Frame` objects, or a JSON map whose keys are the filenames and
whose values decode as `FrameData`; anything else is rejected. -/
def deserialize_frames : Json → DResult (List Frame)
  | .arr js => mapMExcept Frame.fromJson js
  | .obj kvs => mapMExcept (fun kv => (FrameData.fromJson kv.2).map fun d => ⟨kv.1, d⟩) kvs
  | _ => .error .malformedShape

/-- In-progress state for `Frametag`. -/
structure FrametagP where
  name : Option String
  from_ : Option U32
  to_ : Option U32
  direction : Option Direction

/-- One map entry of a `Frametag` object. -/
def Frametag.step (st : FrametagP) (kv : String × Json) : DResult FrametagP :=
  if kv.1 = "name" then
    (setField st.name "name" decodeStr kv.2).map fun o => { st with name := o }
  else if kv.1 = "from" then
    (setField st.from_ "from" decodeU32 kv.2).map fun o => { st with from_ := o }
  else if kv.1 = "to" then
    (setField st.to_ "to" decodeU32 kv.2).map fun o => { st with to_ := o }
  else if kv.1 = "direction" then
    (setField st.direction "direction" Direction.fromJson kv.2).map
      fun o => { st with direction := o }
  else .ok st

/-- Decode a `Frametag` from the entries of a JSON object. -/
def Frametag.fromFields (fs : List (String × Json)) : DResult Frametag := do
  let st ← foldFields Frametag.step ⟨none, none, none, none⟩ fs
  let name ← requireField "name" st.name
  let f ← requireField "from" st.from_
  let t ← requireField "to" st.to_
  let d ← requireField "direction" st.direction
  return ⟨name, f, t, d⟩

/-- Derived `Deserialize` for `Frametag` (map form). -/
def Frametag.fromJson : Json → DResult Frametag
  | .obj fs => Frametag.fromFields fs
  | _ => .error .typeMismatch

/-- In-progress state for `Layer`. -/
structure LayerP where
  name : Option String
  group : Option (Option String)
  opacity : Option (Option U32)
  blend_mode : Option (Option BlendMode)
  color : Option (Option Color)
  data : Option (Option String)

/-- One map entry of a `Layer` object. -/
def Layer.step (st : LayerP) (kv : String × Json) : DResult LayerP :=
  if kv.1 = "name" then
    (setField st.name "name" decodeStr kv.2).map fun o => { st with name := o }
  else if kv.1 = "group" then
    (setField st.group "group" (decodeOpt decodeStr) kv.2).map fun o => { st with group := o }
  else if kv.1 = "opacity" then
    (setField st.opacity "opacity" (decodeOpt decodeU32) kv.2).map
      fun o => { st with opacity := o }
  else if kv.1 = "blendMode" then
    (setField st.blend_mode "blendMode" (decodeOpt BlendMode.fromJson) kv.2).map
      fun o => { st with blend_mode := o }
  else if kv.1 = "color" then
    (setField st.color "color" (decodeOpt Color.fromJson) kv.2).map
      fun o => { st with color := o }
  else if kv.1 = "data" then
    (setField st.data "data" (decodeOpt decodeStr) kv.2).map fun o => { st with data := o }
  else .ok st

/-- Decode a `Layer` from the entries of a JSON object.  All `Option` fields
fall back to `none` when their key is absent (for `opacity` and `blend_mode`
this is also what their `#[serde(default)]` prescribes). -/
def Layer.fromFields (fs : List (String × Json)) : DResult Layer := do
  let st ← foldFields Layer.step ⟨none, none, none, none, none, none⟩ fs
  let name ← requireField "name" st.name
  return ⟨name, optionalField st.group, optionalField st.opacity,
          optionalField st.blend_mode, optionalField st.color, optionalField st.data⟩

/-- Derived `Deserialize` for `Layer` (map form). -/
def Layer.fromJson : Json → DResult Layer
  | .obj fs => Layer.fromFields fs
  | _ => .error .typeMismatch

/-- In-progress state for `SliceKey`. -/
structure SliceKeyP where
  frame : Option U32
  bounds : Option Rect
  pivot : Option (Option Point)
  center : Option (Option Rect)

/-- One map entry of a `SliceKey` object. -/
def SliceKey.step (st : SliceKeyP) (kv : String × Json) : DResult SliceKeyP :=
  if kv.1 = "frame" then
    (setField st.frame "frame" decodeU32 kv.2).map fun o => { st with frame := o }
  else if kv.1 = "bounds" then
    (setField st.bounds "bounds" Rect.fromJson kv.2).map fun o => { st with bounds := o }
  else if kv.1 = "pivot" then
    (setField st.pivot "pivot" (decodeOpt Point.fromJson) kv.2).map
      fun o => { st with pivot := o }
  else if kv.1 = "center" then
    (setField st.center "center" (decodeOpt Rect.fromJson) kv.2).map
      fun o => { st with center := o }
  else .ok st

/-- Decode a `SliceKey` from the entries of a JSON object. -/
def SliceKey.fromFields (fs : List (String × Json)) : DResult SliceKey := do
  let st ← foldFields SliceKey.step ⟨none, none, none, none⟩ fs
  let frame ← requireField "frame" st.frame
  let bounds ← requireField "bounds" st.bounds
  return ⟨frame, bounds, optionalField st.pivot, optionalField st.center⟩

/-- Derived `Deserialize` for `SliceKey` (map form). -/
def SliceKey.fromJson : Json → DResult SliceKey
  | .obj fs => SliceKey.fromFields fs
  | _ => .error .typeMismatch

/-- In-progress state for `Slice`. -/
structure SliceP where
  name : Option String
  color : Option Color
  keys : Option (List SliceKey)
  data : Option (Option String)

/-- One map entry of a `Slice` object. -/
def Slice.step (st : SliceP) (kv : String × Json) : DResult SliceP :=
  if kv.1 = "name" then
    (setField st.name "name" decodeStr kv.2).map fun o => { st with name := o }
  else if kv.1 = "color" then
    (setField st.color "color" Color.fromJson kv.2).map fun o => { st with color := o }
  else if kv.1 = "keys" then
    (setField st.keys "keys" (decodeVec SliceKey.fromJson) kv.2).map
      fun o => { st with keys := o }
  else if kv.1 = "data" then
    (setField st.data "data" (decodeOpt decodeStr) kv.2).map fun o => { st with data := o }
  else .ok st

/-- Decode a `Slice` from the entries of a JSON object (`name`, `color` and
`keys` are mandatory; `data` is optional). -/
def Slice.fromFields (fs : List (String × Json)) : DResult Slice := do
  let st ← foldFields Slice.step ⟨none, none, none, none⟩ fs
  let name ← requireField "name" st.name
  let color ← requireField "color" st.color
  let keys ← requireField "keys" st.keys
  return ⟨name, color, keys, optionalField st.data⟩

/-- Derived `Deserialize` for `Slice` (map form). -/
def Slice.fromJson : Json → DResult Slice
  | .obj fs => Slice.fromFields fs
  | _ => .error .typeMismatch

/-- In-progress state for `Metadata`. -/
structure MetadataP where
  app : Option String
  version : Option String
  format : Option String
  size : Option Dimensions
  scale : Option String
  image : Option (Option String)
  frame_tags : Option (List Frametag)
  layers : Option (List Layer)
  slices : Option (List Slice)

/-- One map entry of a `Metadata` object. -/
def Metadata.step (st : MetadataP) (kv : String × Json) : DResult MetadataP :=
  if kv.1 = "app" then
    (setField st.app "app" decodeStr kv.2).map fun o => { st with app := o }
  else if kv.1 = "version" then
    (setField st.version "version" decodeStr kv.2).map fun o => { st with version := o }
  else if kv.1 = "format" then
    (setField st.format "format" decodeStr kv.2).map fun o => { st with format := o }
  else if kv.1 = "size" then
    (setField st.size "size" Dimensions.fromJson kv.2).map fun o => { st with size := o }
  else if kv.1 = "scale" then
    (setField st.scale "scale" decodeStr kv.2).map fun o => { st with scale := o }
  else if kv.1 = "image" then
    (setField st.image "image" (decodeOpt decodeStr) kv.2).map fun o => { st with image := o }
  else if kv.1 = "frameTags" then
    (setField st.frame_tags "frameTags" (decodeVec Frametag.fromJson) kv.2).map
      fun o => { st with frame_tags := o }
  else if kv.1 = "layers" then
    (setField st.layers "layers" (decodeVec Layer.fromJson) kv.2).map
      fun o => { st with layers := o }
  else if kv.1 = "slices" then
    (setField st.slices "slices" (decodeVec Slice.fromJson) kv.2).map
      fun o => { st with slices := o }
  else .ok st

/-- Decode a `Metadata` from the entries of a JSON object: `app`, `version`,
`format`, `size`, `scale` are mandatory, `image` optional, and the three
`#[serde(default)]` lists fall back to `[]`. -/
def Metadata.fromFields (fs : List (String × Json)) : DResult Metadata := do
  let st ← foldFields Metadata.step ⟨none, none, none, none, none, none, none, none, none⟩ fs
  let app ← requireField "app" st.app
  let version ← requireField "version" st.version
  let format ← requireField "format" st.format
  let size ← requireField "size" st.size
  let scale ← requireField "scale" st.scale
  return ⟨app, version, format, size, scale, optionalField st.image,
          defaultListField st.frame_tags, defaultListField st.layers,
          defaultListField st.slices⟩

/-- Derived `Deserialize` for `Metadata` (map form). -/
def Metadata.fromJson : Json → DResult Metadata
  | .obj fs => Metadata.fromFields fs
  | _ => .error .typeMismatch

/-- In-progress state for `SpritesheetData`. -/
structure SpritesheetP where
  frames : Option (List Frame)
  meta : Option Metadata

/-- One map entry of the root object; `frames` goes through
`deserialize_frames` (the `#[serde(deserialize_with)]` hook). -/
def SpritesheetData.step (st : SpritesheetP) (kv : String × Json) : DResult SpritesheetP :=
  if kv.1 = "frames" then
    (setField st.frames "frames" deserialize_frames kv.2).map fun o => { st with frames := o }
  else if kv.1 = "meta" then
    (setField st.meta "meta" Metadata.fromJson kv.2).map fun o => { st with meta := o }
  else .ok st

/-- Decode a `SpritesheetData` from the entries of the root JSON object. -/
def SpritesheetData.fromFields (fs : List (String × Json)) : DResult SpritesheetData := do
  let st ← foldFields SpritesheetData.step ⟨none, none⟩ fs
  let frames ← requireField "frames" st.frames
  let meta ← requireField "meta" st.meta
  return ⟨frames, meta⟩

/-- Derived `Deserialize` for `SpritesheetData` (map form): the whole
document decode. -/
def SpritesheetData.fromJson : Json → DResult SpritesheetData
  | .obj fs => SpritesheetData.fromFields fs
  | _ => .error .typeMismatch

/-! ## Serializers (derived `Serialize` impls)

A derived `Serialize` writes every field, in declaration order, under its
renamed key; an `Option` field that is `none` is written as JSON `null`
(there is no `skip_serializing_if` anywhere in the crate); a list field is
always written as a JSON array, `[]` when empty. -/

/-- `Option<T>` serialization: `none` is `null`. -/
def Json.ofOpt (f : α → Json) : Option α → Json
  | none => .null
  | some a => f a

/-- Serialized form of `Color`: its canonical string. -/
def Color.toJson (c : Color) : Json := .str (Color.serialize c)

/-- Serialized form of `Rect`. -/
def Rect.toJson (r : Rect) : Json :=
  .obj [("x", .num r.x.val), ("y", .num r.y.val), ("w", .num r.w.val), ("h", .num r.h.val)]

/-- Serialized form of `Point`. -/
def Point.toJson (p : Point) : Json := .obj [("x", .num p.x.val), ("y", .num p.y.val)]

/-- Serialized form of `Dimensions`. -/
def Dimensions.toJson (d : Dimensions) : Json := .obj [("w", .num d.w.val), ("h", .num d.h.val)]

/-- The serialized fields of `FrameData`, camelCase keys, declaration order. -/
def FrameData.fields (d : FrameData) : List (String × Json) :=
  [("frame", d.frame.toJson), ("rotated", .bool d.rotated), ("trimmed", .bool d.trimmed),
   ("spriteSourceSize", d.sprite_source_size.toJson), ("sourceSize", d.source_size.toJson),
   ("duration", .num d.duration.val)]

/-- Serialized form of `FrameData` on its own. -/
def FrameData.toJson (d : FrameData) : Json := .obj d.fields

/-- Serialized form of `Frame`: `filename` followed by the flattened
`FrameData` fields, in one object. -/
def Frame.toJson (f : Frame) : Json := .obj (("filename", .str f.filename) :: f.data.fields)

/-- Serialized form of `Direction`. -/
def Direction.toJson (d : Direction) : Json := .str d.name

/-- Serialized form of `BlendMode`. -/
def BlendMode.toJson (b : BlendMode) : Json := .str b.name

/-- Serialized form of `Frametag`. -/
def Frametag.toJson (t : Frametag) : Json :=
  .obj [("name", .str t.name), ("from", .num t.from_.val), ("to", .num t.to_.val),
        ("direction", t.direction.toJson)]

/-- Serialized form of `Layer`. -/
def Layer.toJson (l : Layer) : Json :=
  .obj [("name", .str l.name), ("group", Json.ofOpt Json.str l.group),
        ("opacity", Json.ofOpt (fun n => .num n.val) l.opacity),
        ("blendMode", Json.ofOpt BlendMode.toJson l.blend_mode),
        ("color", Json.ofOpt Color.toJson l.color),
        ("data", Json.ofOpt Json.str l.data)]

/-- Serialized form of `SliceKey`. -/
def SliceKey.toJson (k : SliceKey) : Json :=
  .obj [("frame", .num k.frame.val), ("bounds", k.bounds.toJson),
        ("pivot", Json.ofOpt Point.toJson k.pivot),
        ("center", Json.ofOpt Rect.toJson k.center)]

/-- Serialized form of `Slice`. -/
def Slice.toJson (s : Slice) : Json :=
  .obj [("name", .str s.name), ("color", s.color.toJson),
        ("keys", .arr (s.keys.map SliceKey.toJson)),
        ("data", Json.ofOpt Json.str s.data)]

/-- Serialized form of `Metadata`. -/
def Metadata.toJson (m : Metadata) : Json :=
  .obj [("app", .str m.app), ("version", .str m.version), ("format", .str m.format),
        ("size", m.size.toJson), ("scale", .str m.scale),
        ("image", Json.ofOpt Json.str m.image),
        ("frameTags", .arr (m.frame_tags.map Frametag.toJson)),
        ("layers", .arr (m.layers.map Layer.toJson)),
        ("slices", .arr (m.slices.map Slice.toJson))]

/-- Serialized form of `SpritesheetData`: the `frames` field is always the
array shape, whichever input shape the value was decoded from. -/
def SpritesheetData.toJson (v : SpritesheetData) : Json :=
  .obj [("frames", .arr (v.frames.map Frame.toJson)), ("meta", v.meta.toJson)]

/-- Key lookup in a serialized object (first occurrence). -/
def Json.getField (j : Json) (k : String) : Option Json :=
  match j with
  | .obj fs => (fs.find? (fun p => p.1 = k)).map (·.2)
  | _ => none

/-! ## Color codec lemmas -/

set_option maxRecDepth 100000

/-- Parsing back the two hex-digit bytes of a byte value recovers it. -/
theorem fromStrRadix16_pair (n : U8) :
    fromStrRadix16 [(hexChar (n.val / 16)).toNat, (hexChar (n.val % 16)).toNat] = some n := by
  revert n; decide

/-- Every hex digit the encoder emits is a lowercase hex digit. -/
theorem hexChar_mem (n : Nat) (h : n < 16) : hexChar n ∈ hexDigits := by
  interval_cases n <;> decide

/-- Every character the encoder emits is ASCII. -/
theorem hexChar_lt128 (n : Nat) : (hexChar n).toNat < 128 := by
  rcases Nat.lt_or_ge n 16 with h | h
  · interval_cases n <;> decide
  · rw [hexChar, List.getD_eq_default]
    · decide
    · exact le_trans (by decide) h

/-- An ASCII character encodes as its single code-point byte. -/
theorem utf8Bytes_ascii (c : Char) (h : c.toNat < 128) : utf8Bytes c = [c.toNat] := by
  simp [utf8Bytes, h]

/-- The hash character's byte. -/
theorem utf8Bytes_hash : utf8Bytes '#' = [35] := rfl

/-- The encoder's digits encode as single bytes. -/
theorem utf8Bytes_hexChar (n : Nat) : utf8Bytes (hexChar n) = [(hexChar n).toNat] :=
  utf8Bytes_ascii _ (hexChar_lt128 n)

/-- The UTF-8 encoding of a character is never empty. -/
theorem utf8Bytes_ne_nil (c : Char) : utf8Bytes c ≠ [] := by
  rw [utf8Bytes]
  split
  · simp
  · split
    · simp
    · split <;> simp

/-- The encoder's output, written out: `#` followed by the four hex pairs. -/
theorem serialize_eq (c : Color) :
    Color.serialize c =
      ⟨['#', hexChar (c.r.val / 16), hexChar (c.r.val % 16),
        hexChar (c.g.val / 16), hexChar (c.g.val % 16),
        hexChar (c.b.val / 16), hexChar (c.b.val % 16),
        hexChar (c.a.val / 16), hexChar (c.a.val % 16)]⟩ := rfl

/-- The encoder's output bytes: nine ASCII bytes. -/
theorem strBytes_serialize (c : Color) :
    strBytes (Color.serialize c) =
      [35, (hexChar (c.r.val / 16)).toNat, (hexChar (c.r.val % 16)).toNat,
       (hexChar (c.g.val / 16)).toNat, (hexChar (c.g.val % 16)).toNat,
       (hexChar (c.b.val / 16)).toNat, (hexChar (c.b.val % 16)).toNat,
       (hexChar (c.a.val / 16)).toNat, (hexChar (c.a.val % 16)).toNat] := by
  rw [serialize_eq]
  show utf8Encode _ = _
  simp [utf8Encode, utf8Bytes_hexChar, utf8Bytes_hash]

/-- An ASCII byte is not a UTF-8 continuation byte. -/
theorem isContinuation_ascii (b : Nat) (h : b < 128) : isContinuation b = false := by
  simp [isContinuation]
  omega

/-- The four pair slices of a 9-byte color string, when the bytes at the
cut points are not continuation bytes (boundaries 0 and 9 always hold). -/
theorem byteSlice9 (b1 b2 b3 b4 b5 b6 b7 b8 : Nat)
    (h1 : isContinuation b1 = false) (h3 : isContinuation b3 = false)
    (h5 : isContinuation b5 = false) (h7 : isContinuation b7 = false) :
    byteSlice [35, b1, b2, b3, b4, b5, b6, b7, b8] 1 3 = some [b1, b2] ∧
    byteSlice [35, b1, b2, b3, b4, b5, b6, b7, b8] 3 5 = some [b3, b4] ∧
    byteSlice [35, b1, b2, b3, b4, b5, b6, b7, b8] 5 7 = some [b5, b6] ∧
    byteSlice [35, b1, b2, b3, b4, b5, b6, b7, b8] 7 9 = some [b7, b8] := by
  refine ⟨?_, ?_, ?_, ?_⟩ <;> simp [byteSlice, isCharBound, h1, h3, h5, h7]

/-- Full case analysis of the byte-level decoder on `#` followed by eight
bytes whose odd positions are not continuation bytes: the four pairs are
parsed R,G,B,A in order and the first pair `u8::from_str_radix` rejects
names its channel. -/
theorem deserializeBytes_channels (b1 b2 b3 b4 b5 b6 b7 b8 : Nat)
    (h1 : isContinuation b1 = false) (h3 : isContinuation b3 = false)
    (h5 : isContinuation b5 = false) (h7 : isContinuation b7 = false) :
    (fromStrRadix16 [b1, b2] = none →
      Color.deserializeBytes [35, b1, b2, b3, b4, b5, b6, b7, b8] =
        .error (.invalidColor (.nonHexDigit .red))) ∧
    (∀ r, fromStrRadix16 [b1, b2] = some r →
      (fromStrRadix16 [b3, b4] = none →
        Color.deserializeBytes [35, b1, b2, b3, b4, b5, b6, b7, b8] =
          .error (.invalidColor (.nonHexDigit .green))) ∧
      (∀ g, fromStrRadix16 [b3, b4] = some g →
        (fromStrRadix16 [b5, b6] = none →
          Color.deserializeBytes [35, b1, b2, b3, b4, b5, b6, b7, b8] =
            .error (.invalidColor (.nonHexDigit .blue))) ∧
        (∀ b, fromStrRadix16 [b5, b6] = some b →
          (fromStrRadix16 [b7, b8] = none →
            Color.deserializeBytes [35, b1, b2, b3, b4, b5, b6, b7, b8] =
              .error (.invalidColor (.nonHexDigit .alpha))) ∧
          (∀ a, fromStrRadix16 [b7, b8] = some a →
            Color.deserializeBytes [35, b1, b2, b3, b4, b5, b6, b7, b8] =
              .ok ⟨r, g, b, a⟩)))) := by
  obtain ⟨s13, s35, s57, s79⟩ := byteSlice9 b1 b2 b3 b4 b5 b6 b7 b8 h1 h3 h5 h7
  refine ⟨fun e1 => ?redc, fun r e1 => ⟨fun e2 => ?greenc, fun g e2 => ⟨fun e3 => ?bluec,
    fun b e3 => ⟨fun e4 => ?alphac, fun a e4 => ?okc⟩⟩⟩⟩
  case redc =>
    simp only [Color.deserializeBytes, s13]; norm_num; simp [e1]
  case greenc =>
    simp only [Color.deserializeBytes, s13, s35]; norm_num; simp [e1, e2]
  case bluec =>
    simp only [Color.deserializeBytes, s13, s35, s57]; norm_num; simp [e1, e2, e3]
  case alphac =>
    simp only [Color.deserializeBytes, s13, s35, s57, s79]; norm_num
    simp [e1, e2, e3, e4]
  case okc =>
    simp only [Color.deserializeBytes, s13, s35, s57, s79]; norm_num
    simp [e1, e2, e3, e4]

/-- Decoding the canonical encoding of a color recovers the color. -/
theorem deserialize_serialize (c : Color) :
    Color.deserialize (Color.serialize c) = .ok c := by
  obtain ⟨r, g, b, a⟩ := c
  rw [Color.deserialize, strBytes_serialize]
  have hch := fun n => isContinuation_ascii _ (hexChar_lt128 n)
  exact ((((deserializeBytes_channels _ _ _ _ _ _ _ _ (hch _) (hch _) (hch _) (hch _)).2
    r (fromStrRadix16_pair r)).2 g (fromStrRadix16_pair g)).2
    b (fromStrRadix16_pair b)).2 a (fromStrRadix16_pair a)

/-- The serialized color string always has 9 characters. -/
theorem serialize_length (c : Color) : (Color.serialize c).length = 9 := rfl

/-- Every character after the `#` is one of the sixteen lowercase digits. -/
theorem serialize_tail_hex (c : Color) :
    ∀ ch ∈ (Color.serialize c).data.tail, ch ∈ hexDigits := by
  obtain ⟨r, g, b, a⟩ := c
  intro ch hch
  have h16 : ∀ n : U8, n.val / 16 < 16 ∧ n.val % 16 < 16 := by
    intro n; have := n.isLt; omega
  rw [serialize_eq] at hch
  simp only [List.tail_cons, List.mem_cons, List.not_mem_nil, or_false] at hch
  rcases hch with h | h | h | h | h | h | h | h <;> subst h <;>
    exact hexChar_mem _ (by cases h16 r; cases h16 g; cases h16 b; cases h16 a; omega)

/-- `Color.serialize` is injective. -/
theorem serialize_injective : Function.Injective Color.serialize := by
  intro c1 c2 h
  have h1 := deserialize_serialize c1
  rw [h, deserialize_serialize c2] at h1
  injection h1 with hh
  exact hh.symm

/-- The `WrongLength` branch of `Color::deserialize` is dead code: because
the source negates the length instead of the comparison (`!s.len() == 7`),
it would fire only on a string of exactly `2^64 - 8` bytes. -/
theorem wrongLength_unreachable (s : String) (h : (strBytes s).length < 2 ^ 64 - 8) :
    Color.deserialize s ≠ .error (.invalidColor .wrongLength) := by
  have hc : ¬ (2 ^ 64 - 1 - (strBytes s).length % 2 ^ 64 = 7) := by omega
  rw [Color.deserialize]
  simp only [Color.deserializeBytes]
  by_cases hh : (strBytes s).head? ≠ some 35
  · rw [if_pos hh]; simp
  · rw [if_neg hh, if_neg hc]
    repeat' split
    all_goals simp

/-- Any input whose first byte is not `#` is rejected with the
missing-hash-prefix error, before anything else is looked at. -/
theorem deserialize_no_hash (s : String) (h : (strBytes s).head? ≠ some 35) :
    Color.deserialize s = .error (.invalidColor .missingHash) := by
  rw [Color.deserialize]
  simp only [Color.deserializeBytes]
  rw [if_pos h]

/-- A character equals `#` exactly when its code point is 35. -/
theorem toNat35_iff (c : Char) : c.toNat = 35 ↔ c = '#' :=
  ⟨fun h => Char.ext (UInt32.ext h), fun h => h ▸ rfl⟩

/-- The first UTF-8 byte of a character other than `#` is never 35: an
ASCII character keeps its code point and a multi-byte character starts with
a lead byte of at least 192. -/
theorem utf8Bytes_head_ne35 (c : Char) (hc : c ≠ '#') :
    (utf8Bytes c).head? ≠ some 35 := by
  have h35 : c.toNat ≠ 35 := fun h => hc ((toNat35_iff c).1 h)
  rw [utf8Bytes]
  split
  · simp; omega
  · split
    · simp; omega
    · split <;> simp <;> omega

/-- The source's `starts_with('#')`, char level: any string whose first
character is not `#` fails with the missing-hash-prefix error. -/
theorem deserialize_no_hash_char (s : String) (c : Char) (hc : s.data.head? = some c)
    (hne : c ≠ '#') : Color.deserialize s = .error (.invalidColor .missingHash) := by
  apply deserialize_no_hash
  cases hd : s.data with
  | nil => rw [hd] at hc; cases hc
  | cons c0 rest =>
    rw [hd] at hc
    injection hc with hc0
    subst hc0
    obtain ⟨b, hb⟩ : ∃ b, (utf8Bytes c0).head? = some b := by
      cases hu : utf8Bytes c0 with
      | nil => exact absurd hu (utf8Bytes_ne_nil c0)
      | cons x xs => exact ⟨x, rfl⟩
    have hne0 := utf8Bytes_head_ne35 c0 hne
    rw [strBytes, hd, utf8Encode, List.head?_append, hb]
    simpa [Option.or] using fun h => hne0 (hb.trans (by rw [h]))

/-- C1: the claim says decode fails with `WrongLength` unless the string has
exactly 9 characters, e.g. on `"#6acd5"`.  The code cannot do that: its
length test reads `!s.len() == 7`, which complements the length instead of
negating the comparison, so the `WrongLength` branch is dead for every
string shorter than `2^64 - 8` bytes, and `"#6acd5"` instead panics on the
out-of-bounds slice `&s[5..7]`. -/
theorem claim_C1_defect :
    Color.deserialize "#6acd5" = .error .panicked ∧
    (∀ s : String, (strBytes s).length < 2 ^ 64 - 8 →
      Color.deserialize s ≠ .error (.invalidColor .wrongLength)) :=
  ⟨by decide, wrongLength_unreachable⟩

/-- Witness for C1: the dead-branch statement applied to `"#6acd5"` itself. -/
theorem claim_C1_defect_witness :
    (strBytes "#6acd5").length < 2 ^ 64 - 8 ∧
      Color.deserialize "#6acd5" ≠ .error (.invalidColor .wrongLength) :=
  ⟨by decide, claim_C1_defect.2 "#6acd5" (by decide)⟩

/-- C2: for every `Color`, encoding yields `#` followed by 8 lowercase hex
digits (9 characters in all), encoding is total (it is a function) and
injective, `decode (encode c) = c`, and the spec's concrete example holds in
both directions. -/
theorem claim_C2_color_roundtrip :
    (∀ c : Color, (Color.serialize c).length = 9 ∧
      (Color.serialize c).data.head? = some '#' ∧
      (∀ ch ∈ (Color.serialize c).data.tail, ch ∈ hexDigits) ∧
      Color.deserialize (Color.serialize c) = .ok c) ∧
    Function.Injective Color.serialize ∧
    Color.serialize ⟨0x6a, 0xcd, 0x5b, 0xff⟩ = "#6acd5bff" ∧
    Color.deserialize "#6acd5bff" = .ok ⟨0x6a, 0xcd, 0x5b, 0xff⟩ :=
  ⟨fun c => ⟨serialize_length c, rfl, serialize_tail_hex c, deserialize_serialize c⟩,
   serialize_injective, by decide, by decide⟩

/-- Witness for C2: the universal parts applied to the spec's example color
and one concrete digit of its encoding. -/
theorem claim_C2_color_roundtrip_witness :
    Color.deserialize (Color.serialize ⟨0x6a, 0xcd, 0x5b, 0xff⟩) =
      .ok ⟨0x6a, 0xcd, 0x5b, 0xff⟩ ∧ '6' ∈ hexDigits :=
  ⟨(claim_C2_color_roundtrip.1 ⟨0x6a, 0xcd, 0x5b, 0xff⟩).2.2.2,
   (claim_C2_color_roundtrip.1 ⟨0x6a, 0xcd, 0x5b, 0xff⟩).2.2.1 '6' (by decide)⟩

/-- C7 counterexample: `"#aéxxxxxx"` is a 9-character string starting with
`#` whose first two-character pair `"aé"` is not valid base-16, yet decode
does not return `NonHexDigit`: byte index 3 falls inside the two-byte
encoding of `é`, so the slice `&s[1..3]` panics on a char boundary. -/
theorem claim_C7_counterexample :
    ("#aéxxxxxx" : String).data.length = 9 ∧
    ("#aéxxxxxx" : String).data.head? = some '#' ∧
    fromStrRadix16 (utf8Encode ['a', 'é']) = none ∧
    Color.deserialize "#aéxxxxxx" = .error .panicked :=
  ⟨by decide, by decide, by decide, by decide⟩

/-- C7 (amended): any input whose first character (equivalently, first byte)
is not `#` fails with the missing-hash-prefix error; on a 9-character
`#`-prefixed string all of whose characters are ASCII, the four 2-character
pairs are parsed R,G,B,A in order and the first pair `u8::from_str_radix`
rejects names its channel; in particular `"6acd5bff"` fails with
`MissingHashPrefix` and `"#6acd5bzz"` fails with `NonHexDigit` on the alpha
channel.  (With non-ASCII characters the byte slicing can panic on a char
boundary instead, as the counterexample shows.) -/
theorem claim_C7_amended :
    (∀ (s : String) (c : Char), s.data.head? = some c → c ≠ '#' →
      Color.deserialize s = .error (.invalidColor .missingHash)) ∧
    (∀ s : String, (strBytes s).head? ≠ some 35 →
      Color.deserialize s = .error (.invalidColor .missingHash)) ∧
    Color.deserialize "6acd5bff" = .error (.invalidColor .missingHash) ∧
    Color.deserialize "#6acd5bzz" = .error (.invalidColor (.nonHexDigit .alpha)) ∧
    (∀ c1 c2 c3 c4 c5 c6 c7 c8 : Char,
      c1.toNat < 128 → c2.toNat < 128 → c3.toNat < 128 → c4.toNat < 128 →
      c5.toNat < 128 → c6.toNat < 128 → c7.toNat < 128 → c8.toNat < 128 →
      (fromStrRadix16 [c1.toNat, c2.toNat] = none →
        Color.deserialize ⟨['#', c1, c2, c3, c4, c5, c6, c7, c8]⟩ =
          .error (.invalidColor (.nonHexDigit .red))) ∧
      (∀ r, fromStrRadix16 [c1.toNat, c2.toNat] = some r →
        (fromStrRadix16 [c3.toNat, c4.toNat] = none →
          Color.deserialize ⟨['#', c1, c2, c3, c4, c5, c6, c7, c8]⟩ =
            .error (.invalidColor (.nonHexDigit .green))) ∧
        (∀ g, fromStrRadix16 [c3.toNat, c4.toNat] = some g →
          (fromStrRadix16 [c5.toNat, c6.toNat] = none →
            Color.deserialize ⟨['#', c1, c2, c3, c4, c5, c6, c7, c8]⟩ =
              .error (.invalidColor (.nonHexDigit .blue))) ∧
          (∀ b, fromStrRadix16 [c5.toNat, c6.toNat] = some b →
            (fromStrRadix16 [c7.toNat, c8.toNat] = none →
              Color.deserialize ⟨['#', c1, c2, c3, c4, c5, c6, c7, c8]⟩ =
                .error (.invalidColor (.nonHexDigit .alpha))) ∧
            (∀ a, fromStrRadix16 [c7.toNat, c8.toNat] = some a →
              Color.deserialize ⟨['#', c1, c2, c3, c4, c5, c6, c7, c8]⟩ =
                .ok ⟨r, g, b, a⟩))))) := by
  refine ⟨deserialize_no_hash_char, deserialize_no_hash, by decide, by decide,
    fun c1 c2 c3 c4 c5 c6 c7 c8 h1 h2 h3 h4 h5 h6 h7 h8 => ?_⟩
  have heq : Color.deserialize ⟨['#', c1, c2, c3, c4, c5, c6, c7, c8]⟩ =
      Color.deserializeBytes
        [35, c1.toNat, c2.toNat, c3.toNat, c4.toNat, c5.toNat, c6.toNat, c7.toNat,
         c8.toNat] := by
    rw [Color.deserialize]
    show Color.deserializeBytes (utf8Encode _) = _
    simp [utf8Encode, utf8Bytes_hash, utf8Bytes_ascii c1 h1, utf8Bytes_ascii c2 h2,
      utf8Bytes_ascii c3 h3, utf8Bytes_ascii c4 h4, utf8Bytes_ascii c5 h5,
      utf8Bytes_ascii c6 h6, utf8Bytes_ascii c7 h7, utf8Bytes_ascii c8 h8]
  simp only [heq]
  exact deserializeBytes_channels _ _ _ _ _ _ _ _
    (isContinuation_ascii _ h1) (isContinuation_ascii _ h3)
    (isContinuation_ascii _ h5) (isContinuation_ascii _ h7)

/-- Witness for C7 (amended): applied to the spec's two failing examples,
all of whose characters are ASCII. -/
theorem claim_C7_amended_witness :
    Color.deserialize "6acd5bff" = .error (.invalidColor .missingHash) ∧
    Color.deserialize ⟨['#', '6', 'a', 'c', 'd', '5', 'b', 'z', 'z']⟩ =
      .error (.invalidColor (.nonHexDigit .alpha)) :=
  ⟨claim_C7_amended.1 "6acd5bff" '6' (by decide) (by decide),
   ((((claim_C7_amended.2.2.2.2 '6' 'a' 'c' 'd' '5' 'b' 'z' 'z'
        (by decide) (by decide) (by decide) (by decide) (by decide) (by decide)
        (by decide) (by decide)).2
      0x6a (by decide)).2 0xcd (by decide)).2 0x5b (by decide)).1 (by decide)⟩

/-! ## Round-trip lemmas for the derived (de)serializers -/

/-- Decoding the serialized form of a `u32` recovers it. -/
theorem decodeU32_num (n : U32) : decodeU32 (Json.num n.val) = .ok n := by
  have h1 : (0 : Int) ≤ (n.val : Int) := Int.ofNat_nonneg _
  have h2 : (n.val : Int) < 2 ^ 32 := by exact_mod_cast n.isLt
  simp [decodeU32, h1, h2]

/-- `decodeOpt` on anything but `null` decodes the payload. -/
theorem decodeOpt_ne_null (f : Json → DResult α) (j : Json) (h : j ≠ .null) :
    decodeOpt f j = (f j).map some := by
  cases j <;> simp [decodeOpt] at h ⊢

/-- Option round trip, given the payload round trip and that the payload
encoder never emits `null`. -/
theorem decodeOpt_ofOpt (f : Json → DResult α) (g : α → Json)
    (hrt : ∀ a, f (g a) = .ok a) (hnn : ∀ a, g a ≠ .null) (o : Option α) :
    decodeOpt f (Json.ofOpt g o) = .ok o := by
  cases o with
  | none => rfl
  | some a => rw [Json.ofOpt, decodeOpt_ne_null f _ (hnn a), hrt a]; rfl

/-- Element-wise round trip of list decoding. -/
theorem mapMExcept_map (f : Json → DResult α) (g : α → Json)
    (hrt : ∀ a, f (g a) = .ok a) (l : List α) :
    mapMExcept f (l.map g) = .ok l := by
  induction l with
  | nil => rfl
  | cons a rest ih => simp [mapMExcept, hrt a, ih]; rfl

/-- Simp set used to run one struct decoder over a literal field list whose
values decode by hypothesis. -/
theorem Rect.rect_canon (jx jy jw jh : Json) (x y w h : U32)
    (hx : decodeU32 jx = .ok x) (hy : decodeU32 jy = .ok y)
    (hw : decodeU32 jw = .ok w) (hh : decodeU32 jh = .ok h) :
    Rect.fromFields [("x", jx), ("y", jy), ("w", jw), ("h", jh)] = .ok ⟨x, y, w, h⟩ := by
  simp [Rect.fromFields, foldFields, Rect.step, setField, requireField, hx, hy, hw, hh,
    Except.map, Except.map_ok, Except.bind, Bind.bind, Except.pure, pure]

/-- `Rect` round trip. -/
theorem Rect.rect_roundtrip (r : Rect) : Rect.fromJson (Rect.toJson r) = .ok r :=
  Rect.rect_canon _ _ _ _ _ _ _ _ (decodeU32_num r.x) (decodeU32_num r.y)
    (decodeU32_num r.w) (decodeU32_num r.h)

/-- `Point` decoding of a literal object. -/
theorem Point.point_canon (jx jy : Json) (x y : U32)
    (hx : decodeU32 jx = .ok x) (hy : decodeU32 jy = .ok y) :
    Point.fromFields [("x", jx), ("y", jy)] = .ok ⟨x, y⟩ := by
  simp [Point.fromFields, foldFields, Point.step, setField, requireField, hx, hy,
    Except.map, Except.map_ok, Except.bind, Bind.bind, Except.pure, pure]

/-- `Point` round trip. -/
theorem Point.point_roundtrip (p : Point) : Point.fromJson (Point.toJson p) = .ok p :=
  Point.point_canon _ _ _ _ (decodeU32_num p.x) (decodeU32_num p.y)

/-- `Dimensions` decoding of a literal object. -/
theorem Dimensions.dims_canon (jw jh : Json) (w h : U32)
    (hw : decodeU32 jw = .ok w) (hh : decodeU32 jh = .ok h) :
    Dimensions.fromFields [("w", jw), ("h", jh)] = .ok ⟨w, h⟩ := by
  simp [Dimensions.fromFields, foldFields, Dimensions.step, setField, requireField, hw, hh,
    Except.map, Except.map_ok, Except.bind, Bind.bind, Except.pure, pure]

/-- `Dimensions` round trip. -/
theorem Dimensions.dims_roundtrip (d : Dimensions) :
    Dimensions.fromJson (Dimensions.toJson d) = .ok d :=
  Dimensions.dims_canon _ _ _ _ (decodeU32_num d.w) (decodeU32_num d.h)

/-- `Direction` round trip. -/
theorem Direction.direction_roundtrip (d : Direction) :
    Direction.fromJson (Direction.toJson d) = .ok d := by
  cases d <;> rfl

/-- `BlendMode` round trip. -/
theorem BlendMode.blendmode_roundtrip (b : BlendMode) :
    BlendMode.fromJson (BlendMode.toJson b) = .ok b := by
  cases b <;> rfl

/-- `Color` round trip through JSON. -/
theorem Color.color_roundtrip (c : Color) : Color.fromJson (Color.toJson c) = .ok c :=
  deserialize_serialize c

/-- `FrameData` decoding of a literal object. -/
theorem FrameData.framedata_canon (j1 j2 j3 j4 j5 j6 : Json) (f : Rect) (rot tri : Bool)
    (sss : Rect) (ss : Dimensions) (dur : U32)
    (h1 : Rect.fromJson j1 = .ok f) (h2 : decodeBool j2 = .ok rot)
    (h3 : decodeBool j3 = .ok tri) (h4 : Rect.fromJson j4 = .ok sss)
    (h5 : Dimensions.fromJson j5 = .ok ss) (h6 : decodeU32 j6 = .ok dur) :
    FrameData.fromFields
      [("frame", j1), ("rotated", j2), ("trimmed", j3), ("spriteSourceSize", j4),
       ("sourceSize", j5), ("duration", j6)] = .ok ⟨f, rot, tri, sss, ss, dur⟩ := by
  simp [FrameData.fromFields, foldFields, FrameData.step, setField, requireField,
    h1, h2, h3, h4, h5, h6, Except.map, Except.map_ok, Except.bind, Bind.bind,
    Except.pure, pure]

/-- `FrameData` round trip at the field-list level (used both standalone and
under `Frame`'s `#[serde(flatten)]`). -/
theorem FrameData.fields_roundtrip (d : FrameData) :
    FrameData.fromFields d.fields = .ok d :=
  FrameData.framedata_canon _ _ _ _ _ _ _ _ _ _ _ _ (Rect.rect_roundtrip d.frame) rfl rfl
    (Rect.rect_roundtrip d.sprite_source_size) (Dimensions.dims_roundtrip d.source_size)
    (decodeU32_num d.duration)

/-- `FrameData` round trip. -/
theorem FrameData.framedata_roundtrip (d : FrameData) :
    FrameData.fromJson (FrameData.toJson d) = .ok d :=
  FrameData.fields_roundtrip d

/-- Folding `Frame.step` over entries none of which is keyed `filename`
appends them all to the buffer, in order. -/
theorem Frame.fold_no_filename (l : List (String × Json))
    (hl : ∀ kv ∈ l, kv.1 ≠ "filename") :
    ∀ fn buf, foldFields Frame.step ⟨fn, buf⟩ l = .ok ⟨fn, buf ++ l⟩ := by
  induction l with
  | nil => intro fn buf; simp [foldFields]
  | cons kv rest ih =>
    intro fn buf
    have hkv : kv.1 ≠ "filename" := hl kv (List.mem_cons_self kv rest)
    have hrest : ∀ kv ∈ rest, kv.1 ≠ "filename" :=
      fun kv h => hl kv (List.mem_cons_of_mem _ h)
    simp [foldFields, Frame.step, hkv, ih hrest]

/-- `Frame` decoding of a literal object: `filename` first, then entries
that all belong to the flattened `FrameData`. -/
theorem Frame.fromJson_canon (jf : Json) (fn : String) (rest : List (String × Json))
    (d : FrameData) (hf : decodeStr jf = .ok fn)
    (hrest : ∀ kv ∈ rest, kv.1 ≠ "filename")
    (hd : FrameData.fromFields rest = .ok d) :
    Frame.fromJson (.obj (("filename", jf) :: rest)) = .ok ⟨fn, d⟩ := by
  simp [Frame.fromJson, foldFields, Frame.step, setField, requireField, hf,
    Frame.fold_no_filename rest hrest, hd, Except.map, Except.map_ok, Except.bind,
    Bind.bind, Except.pure, pure]

/-- No serialized `FrameData` field is keyed `filename`. -/
theorem FrameData.fields_keys (d : FrameData) : ∀ kv ∈ d.fields, kv.1 ≠ "filename" := by
  intro kv h
  simp [FrameData.fields] at h
  rcases h with h | h | h | h | h | h <;> rw [h] <;> simp

/-- `Frame` round trip: `filename` is read back and the remaining entries
are buffered in order and fed to `FrameData`. -/
theorem Frame.frame_roundtrip (f : Frame) : Frame.fromJson (Frame.toJson f) = .ok f :=
  Frame.fromJson_canon _ _ _ _ rfl (FrameData.fields_keys f.data)
    (FrameData.fields_roundtrip f.data)

/-- Option round trips for each payload type used by an optional field. -/
theorem decodeOptStr_rt (o : Option String) :
    decodeOpt decodeStr (Json.ofOpt Json.str o) = .ok o :=
  decodeOpt_ofOpt decodeStr Json.str (fun _ => rfl) (fun _ => by simp) o

/-- Optional `u32` round trip. -/
theorem decodeOptU32_rt (o : Option U32) :
    decodeOpt decodeU32 (Json.ofOpt (fun n => .num n.val) o) = .ok o :=
  decodeOpt_ofOpt decodeU32 (fun n => .num n.val) decodeU32_num (fun _ => by simp) o

/-- Optional `BlendMode` round trip. -/
theorem decodeOptBlend_rt (o : Option BlendMode) :
    decodeOpt BlendMode.fromJson (Json.ofOpt BlendMode.toJson o) = .ok o :=
  decodeOpt_ofOpt BlendMode.fromJson BlendMode.toJson BlendMode.blendmode_roundtrip
    (fun a => by simp [BlendMode.toJson]) o

/-- Optional `Color` round trip. -/
theorem decodeOptColor_rt (o : Option Color) :
    decodeOpt Color.fromJson (Json.ofOpt Color.toJson o) = .ok o :=
  decodeOpt_ofOpt Color.fromJson Color.toJson Color.color_roundtrip
    (fun a => by simp [Color.toJson]) o

/-- Optional `Point` round trip. -/
theorem decodeOptPoint_rt (o : Option Point) :
    decodeOpt Point.fromJson (Json.ofOpt Point.toJson o) = .ok o :=
  decodeOpt_ofOpt Point.fromJson Point.toJson Point.point_roundtrip
    (fun a => by simp [Point.toJson]) o

/-- Optional `Rect` round trip. -/
theorem decodeOptRect_rt (o : Option Rect) :
    decodeOpt Rect.fromJson (Json.ofOpt Rect.toJson o) = .ok o :=
  decodeOpt_ofOpt Rect.fromJson Rect.toJson Rect.rect_roundtrip
    (fun a => by simp [Rect.toJson]) o

/-- List round trip for `Vec<T>` fields. -/
theorem decodeVec_map (f : Json → DResult α) (g : α → Json)
    (hrt : ∀ a, f (g a) = .ok a) (l : List α) :
    decodeVec f (.arr (l.map g)) = .ok l :=
  mapMExcept_map f g hrt l

/-- `Frametag` decoding of a literal object. -/
theorem Frametag.frametag_canon (j1 j2 j3 j4 : Json) (nm : String) (fr t : U32)
    (di : Direction) (h1 : decodeStr j1 = .ok nm) (h2 : decodeU32 j2 = .ok fr)
    (h3 : decodeU32 j3 = .ok t) (h4 : Direction.fromJson j4 = .ok di) :
    Frametag.fromFields [("name", j1), ("from", j2), ("to", j3), ("direction", j4)] =
      .ok ⟨nm, fr, t, di⟩ := by
  simp [Frametag.fromFields, foldFields, Frametag.step, setField, requireField,
    h1, h2, h3, h4, Except.map, Except.map_ok, Except.bind, Bind.bind, Except.pure, pure]

/-- `Frametag` round trip. -/
theorem Frametag.frametag_roundtrip (t : Frametag) : Frametag.fromJson (Frametag.toJson t) = .ok t :=
  Frametag.frametag_canon _ _ _ _ _ _ _ _ rfl (decodeU32_num t.from_)
    (decodeU32_num t.to_) (Direction.direction_roundtrip t.direction)

/-- `Layer` decoding of a literal object. -/
theorem Layer.layer_canon (j1 j2 j3 j4 j5 j6 : Json) (nm : String) (g : Option String)
    (op : Option U32) (bm : Option BlendMode) (co : Option Color) (da : Option String)
    (h1 : decodeStr j1 = .ok nm) (h2 : decodeOpt decodeStr j2 = .ok g)
    (h3 : decodeOpt decodeU32 j3 = .ok op)
    (h4 : decodeOpt BlendMode.fromJson j4 = .ok bm)
    (h5 : decodeOpt Color.fromJson j5 = .ok co) (h6 : decodeOpt decodeStr j6 = .ok da) :
    Layer.fromFields
      [("name", j1), ("group", j2), ("opacity", j3), ("blendMode", j4), ("color", j5),
       ("data", j6)] = .ok ⟨nm, g, op, bm, co, da⟩ := by
  simp [Layer.fromFields, foldFields, Layer.step, setField, requireField, optionalField,
    h1, h2, h3, h4, h5, h6, Except.map, Except.map_ok, Except.bind, Bind.bind,
    Except.pure, pure]

/-- `Layer` round trip. -/
theorem Layer.layer_roundtrip (l : Layer) : Layer.fromJson (Layer.toJson l) = .ok l :=
  Layer.layer_canon _ _ _ _ _ _ _ _ _ _ _ _ rfl (decodeOptStr_rt l.group)
    (decodeOptU32_rt l.opacity) (decodeOptBlend_rt l.blend_mode)
    (decodeOptColor_rt l.color) (decodeOptStr_rt l.data)

/-- `SliceKey` decoding of a literal object. -/
theorem SliceKey.slicekey_canon (j1 j2 j3 j4 : Json) (fr : U32) (bo : Rect)
    (pv : Option Point) (ce : Option Rect)
    (h1 : decodeU32 j1 = .ok fr) (h2 : Rect.fromJson j2 = .ok bo)
    (h3 : decodeOpt Point.fromJson j3 = .ok pv)
    (h4 : decodeOpt Rect.fromJson j4 = .ok ce) :
    SliceKey.fromFields [("frame", j1), ("bounds", j2), ("pivot", j3), ("center", j4)] =
      .ok ⟨fr, bo, pv, ce⟩ := by
  simp [SliceKey.fromFields, foldFields, SliceKey.step, setField, requireField,
    optionalField, h1, h2, h3, h4, Except.map, Except.map_ok, Except.bind, Bind.bind,
    Except.pure, pure]

/-- `SliceKey` round trip. -/
theorem SliceKey.slicekey_roundtrip (k : SliceKey) : SliceKey.fromJson (SliceKey.toJson k) = .ok k :=
  SliceKey.slicekey_canon _ _ _ _ _ _ _ _ (decodeU32_num k.frame)
    (Rect.rect_roundtrip k.bounds) (decodeOptPoint_rt k.pivot) (decodeOptRect_rt k.center)

/-- `Slice` decoding of a literal object. -/
theorem Slice.slice_canon (j1 j2 j3 j4 : Json) (nm : String) (co : Color)
    (ks : List SliceKey) (da : Option String)
    (h1 : decodeStr j1 = .ok nm) (h2 : Color.fromJson j2 = .ok co)
    (h3 : decodeVec SliceKey.fromJson j3 = .ok ks) (h4 : decodeOpt decodeStr j4 = .ok da) :
    Slice.fromFields [("name", j1), ("color", j2), ("keys", j3), ("data", j4)] =
      .ok ⟨nm, co, ks, da⟩ := by
  simp [Slice.fromFields, foldFields, Slice.step, setField, requireField, optionalField,
    h1, h2, h3, h4, Except.map, Except.map_ok, Except.bind, Bind.bind, Except.pure, pure]

/-- `Slice` round trip. -/
theorem Slice.slice_roundtrip (s : Slice) : Slice.fromJson (Slice.toJson s) = .ok s :=
  Slice.slice_canon _ _ _ _ _ _ _ _ rfl (Color.color_roundtrip s.color)
    (decodeVec_map _ _ SliceKey.slicekey_roundtrip s.keys) (decodeOptStr_rt s.data)

/-- `Metadata` decoding of a literal object with all nine keys present. -/
theorem Metadata.metadata_canon (j1 j2 j3 j4 j5 j6 j7 j8 j9 : Json)
    (ap ve fo : String) (si : Dimensions) (sc : String) (im : Option String)
    (ft : List Frametag) (la : List Layer) (sl : List Slice)
    (h1 : decodeStr j1 = .ok ap) (h2 : decodeStr j2 = .ok ve)
    (h3 : decodeStr j3 = .ok fo) (h4 : Dimensions.fromJson j4 = .ok si)
    (h5 : decodeStr j5 = .ok sc) (h6 : decodeOpt decodeStr j6 = .ok im)
    (h7 : decodeVec Frametag.fromJson j7 = .ok ft)
    (h8 : decodeVec Layer.fromJson j8 = .ok la)
    (h9 : decodeVec Slice.fromJson j9 = .ok sl) :
    Metadata.fromFields
      [("app", j1), ("version", j2), ("format", j3), ("size", j4), ("scale", j5),
       ("image", j6), ("frameTags", j7), ("layers", j8), ("slices", j9)] =
      .ok ⟨ap, ve, fo, si, sc, im, ft, la, sl⟩ := by
  simp [Metadata.fromFields, foldFields, Metadata.step, setField, requireField,
    optionalField, defaultListField, h1, h2, h3, h4, h5, h6, h7, h8, h9, Except.map,
    Except.map_ok, Except.bind, Bind.bind, Except.pure, pure]

/-- `Metadata` round trip. -/
theorem Metadata.metadata_roundtrip (m : Metadata) : Metadata.fromJson (Metadata.toJson m) = .ok m :=
  Metadata.metadata_canon _ _ _ _ _ _ _ _ _ _ _ _ _ _ _ _ _ _ rfl rfl rfl
    (Dimensions.dims_roundtrip m.size) rfl (decodeOptStr_rt m.image)
    (decodeVec_map _ _ Frametag.frametag_roundtrip m.frame_tags)
    (decodeVec_map _ _ Layer.layer_roundtrip m.layers)
    (decodeVec_map _ _ Slice.slice_roundtrip m.slices)

/-- Root-object decoding of a literal object. -/
theorem SpritesheetData.spritesheet_canon (j1 j2 : Json) (fs : List Frame) (me : Metadata)
    (h1 : deserialize_frames j1 = .ok fs) (h2 : Metadata.fromJson j2 = .ok me) :
    SpritesheetData.fromFields [("frames", j1), ("meta", j2)] = .ok ⟨fs, me⟩ := by
  simp [SpritesheetData.fromFields, foldFields, SpritesheetData.step, setField,
    requireField, h1, h2, Except.map, Except.map_ok, Except.bind, Bind.bind,
    Except.pure, pure]

/-- The whole-document round trip: decoding the serialized form of any model
value recovers it exactly. -/
theorem SpritesheetData.spritesheet_roundtrip (v : SpritesheetData) :
    SpritesheetData.fromJson (SpritesheetData.toJson v) = .ok v :=
  SpritesheetData.spritesheet_canon _ _ _ _
    (mapMExcept_map _ _ Frame.frame_roundtrip v.frames) (Metadata.metadata_roundtrip v.meta)

/-- C3: for every `SpritesheetData` value (in particular every one produced
by decode, from either frame-list shape), decoding its encoding yields it
back exactly, and the encoding always carries the array shape under the
`frames` key. -/
theorem claim_C3_document_roundtrip :
    (∀ V : SpritesheetData, SpritesheetData.fromJson (SpritesheetData.toJson V) = .ok V) ∧
    (∀ V : SpritesheetData,
      (SpritesheetData.toJson V).getField "frames" =
        some (.arr (V.frames.map Frame.toJson))) :=
  ⟨SpritesheetData.spritesheet_roundtrip, fun _ => rfl⟩

/-- C6 counterexample: a layer object without a `blendMode` key decodes, but
its blend mode is `none`, not the claimed default `Normal`. -/
theorem claim_C6_counterexample :
    Layer.fromJson (.obj [("name", .str "L")]) = .ok ⟨"L", none, none, none, none, none⟩ ∧
    ((⟨"L", none, none, none, none, none⟩ : Layer).blend_mode = some .normal → False) :=
  ⟨rfl, fun h => by cases h⟩

/-- C6 (amended): when a layer object omits the `blendMode` key, the decoded
layer's blend mode is `none` (`Option<BlendMode>` under `#[serde(default)]`),
and supplying the JSON number `0` is a type error, not `Normal`; `Normal` is
only the `#[derive(Default)]` value of the `BlendMode` type itself. -/
theorem claim_C6_amended :
    (∀ nm : String,
      Layer.fromJson (.obj [("name", .str nm)]) = .ok ⟨nm, none, none, none, none, none⟩) ∧
    (∀ nm : String,
      Layer.fromJson (.obj [("name", .str nm), ("blendMode", .num 0)]) =
        .error .typeMismatch) ∧
    (default : BlendMode) = .normal :=
  ⟨fun _ => rfl, fun _ => rfl, rfl⟩

/-- C9: `"hard_light"` decodes to `HardLight`; the decoder accepts exactly
the 19 snake_case variant names (any other string is an unknown variant);
`Direction` accepts exactly `"forward"`, `"reverse"`, `"pingpong"`. -/
theorem claim_C9_enums :
    BlendMode.fromJson (.str "hard_light") = .ok .hardLight ∧
    blendModePairs.length = 19 ∧
    (∀ b : BlendMode, BlendMode.fromJson (.str b.name) = .ok b) ∧
    (∀ s : String, s ∉ blendModePairs.map Prod.fst →
      BlendMode.fromJson (.str s) = .error .unknownEnumVariant) ∧
    (∀ (s : String) (d : Direction), Direction.fromJson (.str s) = .ok d ↔
      (s = "forward" ∧ d = .forward) ∨ (s = "reverse" ∧ d = .reverse) ∨
      (s = "pingpong" ∧ d = .pingpong)) := by
  refine ⟨rfl, rfl, fun b => by cases b <;> rfl, fun s hs => ?_, fun s d => ?_⟩
  · have hf : blendModePairs.find? (fun p => p.1 = s) = none := by
      rw [List.find?_eq_none]
      intro p hp
      simp only [decide_eq_true_eq]
      intro hps
      exact hs (hps ▸ List.mem_map_of_mem Prod.fst hp)
    simp [BlendMode.fromJson, hf]
  · by_cases h1 : s = "forward" <;> by_cases h2 : s = "reverse" <;>
      by_cases h3 : s = "pingpong" <;> simp_all [Direction.fromJson, eq_comm]

/-- Witness for C9: the unknown-variant case applied to `"bogus"`. -/
theorem claim_C9_enums_witness :
    BlendMode.fromJson (.str "bogus") = .error .unknownEnumVariant ∧
    (Direction.fromJson (.str "pingpong") = .ok .pingpong ↔
      (("pingpong" : String) = "forward" ∧ Direction.pingpong = .forward) ∨
      (("pingpong" : String) = "reverse" ∧ Direction.pingpong = .reverse) ∨
      (("pingpong" : String) = "pingpong" ∧ Direction.pingpong = .pingpong)) :=
  ⟨claim_C9_enums.2.2.2.1 "bogus" (by decide),
   claim_C9_enums.2.2.2.2 "pingpong" .pingpong⟩

/-- C10: every `Option` field that is `none` is serialized as an explicit
JSON `null` under its key (never omitted), decoding `null` into any optional
field yields `none`, and consequently `none` fields survive the round trip
of their carrying struct. -/
theorem claim_C10_none_fields :
    (∀ m : Metadata, m.image = none → (Metadata.toJson m).getField "image" = some .null) ∧
    (∀ l : Layer, l.group = none → (Layer.toJson l).getField "group" = some .null) ∧
    (∀ l : Layer, l.opacity = none → (Layer.toJson l).getField "opacity" = some .null) ∧
    (∀ l : Layer, l.blend_mode = none → (Layer.toJson l).getField "blendMode" = some .null) ∧
    (∀ l : Layer, l.color = none → (Layer.toJson l).getField "color" = some .null) ∧
    (∀ l : Layer, l.data = none → (Layer.toJson l).getField "data" = some .null) ∧
    (∀ s : Slice, s.data = none → (Slice.toJson s).getField "data" = some .null) ∧
    (∀ k : SliceKey, k.pivot = none → (SliceKey.toJson k).getField "pivot" = some .null) ∧
    (∀ k : SliceKey, k.center = none → (SliceKey.toJson k).getField "center" = some .null) ∧
    (decodeOpt decodeStr .null = .ok none ∧ decodeOpt decodeU32 .null = .ok none ∧
     decodeOpt BlendMode.fromJson .null = .ok none ∧
     decodeOpt Color.fromJson .null = .ok none ∧
     decodeOpt Point.fromJson .null = .ok none ∧ decodeOpt Rect.fromJson .null = .ok none) ∧
    (∀ l : Layer, Layer.fromJson (Layer.toJson l) = .ok l) ∧
    (∀ k : SliceKey, SliceKey.fromJson (SliceKey.toJson k) = .ok k) ∧
    (∀ s : Slice, Slice.fromJson (Slice.toJson s) = .ok s) ∧
    (∀ m : Metadata, Metadata.fromJson (Metadata.toJson m) = .ok m) := by
  refine ⟨fun m hm => ?_, fun l hl => ?_, fun l hl => ?_, fun l hl => ?_, fun l hl => ?_,
    fun l hl => ?_, fun s hs => ?_, fun k hk => ?_, fun k hk => ?_,
    ⟨rfl, rfl, rfl, rfl, rfl, rfl⟩,
    Layer.layer_roundtrip, SliceKey.slicekey_roundtrip, Slice.slice_roundtrip, Metadata.metadata_roundtrip⟩
  · rw [show (Metadata.toJson m).getField "image" =
        some (Json.ofOpt Json.str m.image) from rfl, hm]; rfl
  · rw [show (Layer.toJson l).getField "group" =
        some (Json.ofOpt Json.str l.group) from rfl, hl]; rfl
  · rw [show (Layer.toJson l).getField "opacity" =
        some (Json.ofOpt (fun n => .num n.val) l.opacity) from rfl, hl]; rfl
  · rw [show (Layer.toJson l).getField "blendMode" =
        some (Json.ofOpt BlendMode.toJson l.blend_mode) from rfl, hl]; rfl
  · rw [show (Layer.toJson l).getField "color" =
        some (Json.ofOpt Color.toJson l.color) from rfl, hl]; rfl
  · rw [show (Layer.toJson l).getField "data" =
        some (Json.ofOpt Json.str l.data) from rfl, hl]; rfl
  · rw [show (Slice.toJson s).getField "data" =
        some (Json.ofOpt Json.str s.data) from rfl, hs]; rfl
  · rw [show (SliceKey.toJson k).getField "pivot" =
        some (Json.ofOpt Point.toJson k.pivot) from rfl, hk]; rfl
  · rw [show (SliceKey.toJson k).getField "center" =
        some (Json.ofOpt Rect.toJson k.center) from rfl, hk]; rfl

/-- Witness for C10: the null-encoding parts applied to concrete values with
`none` fields. -/
theorem claim_C10_none_fields_witness :
    (Metadata.toJson ⟨"a", "v", "f", ⟨0, 0⟩, "1", none, [], [], []⟩).getField "image" =
      some .null ∧
    (Layer.toJson ⟨"L", none, none, none, none, none⟩).getField "group" = some .null ∧
    (Layer.toJson ⟨"L", none, none, none, none, none⟩).getField "opacity" = some .null ∧
    (Layer.toJson ⟨"L", none, none, none, none, none⟩).getField "blendMode" = some .null ∧
    (Layer.toJson ⟨"L", none, none, none, none, none⟩).getField "color" = some .null ∧
    (Layer.toJson ⟨"L", none, none, none, none, none⟩).getField "data" = some .null ∧
    (Slice.toJson ⟨"S", ⟨0, 0, 0, 0⟩, [], none⟩).getField "data" = some .null ∧
    (SliceKey.toJson ⟨0, ⟨0, 0, 0, 0⟩, none, none⟩).getField "pivot" = some .null ∧
    (SliceKey.toJson ⟨0, ⟨0, 0, 0, 0⟩, none, none⟩).getField "center" = some .null :=
  ⟨claim_C10_none_fields.1 _ rfl,
   claim_C10_none_fields.2.1 _ rfl,
   claim_C10_none_fields.2.2.1 _ rfl,
   claim_C10_none_fields.2.2.2.1 _ rfl,
   claim_C10_none_fields.2.2.2.2.1 _ rfl,
   claim_C10_none_fields.2.2.2.2.2.1 _ rfl,
   claim_C10_none_fields.2.2.2.2.2.2.1 _ rfl,
   claim_C10_none_fields.2.2.2.2.2.2.2.1 _ rfl,
   claim_C10_none_fields.2.2.2.2.2.2.2.2.1 _ rfl⟩

/-! ## The frame-list decoder (`deserialize_frames`) -/

/-- List decoding succeeds exactly when every element decodes, pointwise and
in order. -/
theorem mapMExcept_ok_iff (f : α → DResult β) (l : List α) (ys : List β) :
    mapMExcept f l = .ok ys ↔ List.Forall₂ (fun a b => f a = .ok b) l ys := by
  induction l generalizing ys with
  | nil => cases ys <;> simp [mapMExcept]
  | cons a rest ih =>
    cases hfa : f a with
    | error e =>
      simp only [mapMExcept, hfa]
      cases ys <;> simp [hfa, List.forall₂_cons]
    | ok b =>
      cases ys with
      | nil =>
        constructor
        · intro h
          simp only [mapMExcept, hfa] at h
          cases hrest : mapMExcept f rest <;> rw [hrest] at h <;> simp [Except.map] at h
        · intro h
          cases h
      | cons y ys' =>
        simp [mapMExcept, hfa, List.forall₂_cons, ih, Except.map]
        cases hrest : mapMExcept f rest <;> simp [hrest] at ih ⊢ <;> aesop

/-- A failing element makes the whole list decode fail. -/
theorem mapMExcept_err (f : α → DResult β) (l : List α) (a : α) (ha : a ∈ l) (e : DError)
    (he : f a = .error e) : ∃ eo, mapMExcept f l = .error eo := by
  induction l with
  | nil => cases ha
  | cons b rest ih =>
    cases hfb : f b with
    | error e0 => exact ⟨e0, by simp [mapMExcept, hfb]⟩
    | ok v =>
      rcases List.mem_cons.1 ha with h | h
      · rw [h, hfb] at he; cases he
      · rcases ih h with ⟨eo, heo⟩
        exact ⟨eo, by simp [mapMExcept, hfb, heo, Except.map]⟩

/-- One successful head element and a successful tail make a successful
list decode. -/
theorem mapMExcept_cons (f : α → DResult β) (a : α) (l : List α) (b : β) (ys : List β)
    (ha : f a = .ok b) (hl : mapMExcept f l = .ok ys) :
    mapMExcept f (a :: l) = .ok (b :: ys) := by
  rw [mapMExcept, ha, hl]
  rfl

/-- One map-shape frame entry decodes to `fr` exactly when the key is the
filename and the value decodes to the frame data. -/
theorem frame_pair_ok (kv : String × Json) (fr : Frame) :
    (FrameData.fromJson kv.2).map (fun d => (⟨kv.1, d⟩ : Frame)) = .ok fr ↔
      fr.filename = kv.1 ∧ FrameData.fromJson kv.2 = .ok fr.data := by
  obtain ⟨fn, d⟩ := fr
  cases h : FrameData.fromJson kv.2 <;> simp [h, Except.map]
  aesop

/-- A non-object JSON value never decodes as a `Frame` (the flattened struct
requires a map). -/
theorem Frame.fromJson_not_obj (j : Json) (hj : ∀ fs, j ≠ .obj fs) :
    ∃ e, Frame.fromJson j = .error e := by
  cases j with
  | obj fs => exact absurd rfl (hj fs)
  | null => exact ⟨.typeMismatch, rfl⟩
  | bool b => exact ⟨.typeMismatch, rfl⟩
  | num n => exact ⟨.typeMismatch, rfl⟩
  | str s => exact ⟨.typeMismatch, rfl⟩
  | arr xs => exact ⟨.typeMismatch, rfl⟩

/-- Decoding the array shape built from filename/frame-data pairs yields the
corresponding frames, in order. -/
theorem frames_arr_of_pairs (ps : List (String × FrameData)) :
    mapMExcept Frame.fromJson (ps.map fun p => Frame.toJson ⟨p.1, p.2⟩) =
      .ok (ps.map fun p => ⟨p.1, p.2⟩) := by
  induction ps with
  | nil => rfl
  | cons p rest ih =>
    rw [List.map_cons, List.map_cons, mapMExcept, Frame.frame_roundtrip, ih]
    rfl

/-- One map-shape entry built from a filename/frame-data pair decodes to the
corresponding frame. -/
theorem frame_entry_rt (p : String × FrameData) :
    (FrameData.fromJson (FrameData.toJson p.2)).map (fun d => (⟨p.1, d⟩ : Frame)) =
      .ok ⟨p.1, p.2⟩ := by
  rw [FrameData.framedata_roundtrip]
  rfl

/-- `frame_entry_rt` in the applied form the map-shape fold produces. -/
theorem frame_entry_rt2 (p : String × FrameData) :
    (fun kv => (FrameData.fromJson kv.2).map fun d => (⟨kv.1, d⟩ : Frame))
      (p.1, FrameData.toJson p.2) = .ok ⟨p.1, p.2⟩ := frame_entry_rt p

/-- Decoding the map shape built from filename/frame-data pairs yields the
same frames, in the same order. -/
theorem frames_obj_of_pairs (ps : List (String × FrameData)) :
    mapMExcept (fun kv => (FrameData.fromJson kv.2).map fun d => (⟨kv.1, d⟩ : Frame))
      (ps.map fun p => (p.1, FrameData.toJson p.2)) =
      .ok (ps.map fun p => ⟨p.1, p.2⟩) := by
  induction ps with
  | nil => rfl
  | cons p rest ih =>
    rw [List.map_cons, List.map_cons]
    exact mapMExcept_cons _ _ _ _ _ (frame_entry_rt2 p) ih

/-- A concrete `FrameData` value used in witnesses. -/
def df0 : FrameData := ⟨⟨0, 0, 1, 1⟩, false, false, ⟨0, 0, 1, 1⟩, ⟨1, 1⟩, 100⟩

/-- C4: the frame list decodes from either JSON shape.  An array input
decodes element-wise in order (each element must itself decode as a `Frame`
object — any non-object element fails); a map input pairs each key as the
filename with its value decoded as `FrameData`, in entry order; the two
shapes over the same filename-to-`FrameData` pairs produce the same frame
sequence (hence the same set of pairs); any other JSON value fails with
`MalformedShape`. -/
theorem claim_C4_frame_shapes :
    (∀ (elems : List Json) (frames : List Frame),
      deserialize_frames (.arr elems) = .ok frames ↔
        List.Forall₂ (fun j fr => Frame.fromJson j = .ok fr) elems frames) ∧
    (∀ j : Json, (∀ fs, j ≠ .obj fs) → ∃ e, Frame.fromJson j = .error e) ∧
    (∀ (kvs : List (String × Json)) (frames : List Frame),
      deserialize_frames (.obj kvs) = .ok frames ↔
        List.Forall₂
          (fun kv fr => fr.filename = kv.1 ∧ FrameData.fromJson kv.2 = .ok fr.data)
          kvs frames) ∧
    (∀ ps : List (String × FrameData),
      deserialize_frames (.arr (ps.map fun p => Frame.toJson ⟨p.1, p.2⟩)) =
        .ok (ps.map fun p => ⟨p.1, p.2⟩) ∧
      deserialize_frames (.obj (ps.map fun p => (p.1, FrameData.toJson p.2))) =
        .ok (ps.map fun p => ⟨p.1, p.2⟩)) ∧
    (∀ j : Json, (∀ xs, j ≠ .arr xs) → (∀ fs, j ≠ .obj fs) →
      deserialize_frames j = .error .malformedShape) := by
  refine ⟨fun elems frames => mapMExcept_ok_iff _ _ _,
    Frame.fromJson_not_obj,
    fun kvs frames => ?_, fun ps => ⟨frames_arr_of_pairs ps, frames_obj_of_pairs ps⟩,
    fun j h1 h2 => ?_⟩
  · refine (mapMExcept_ok_iff _ _ _).trans ⟨fun h => ?_, fun h => ?_⟩
    · exact h.imp fun a b hp => (frame_pair_ok a b).1 hp
    · exact h.imp fun a b hp => (frame_pair_ok a b).2 hp
  · cases j with
    | arr xs => exact absurd rfl (h1 xs)
    | obj fs => exact absurd rfl (h2 fs)
    | null => rfl
    | bool b => rfl
    | num n => rfl
    | str s => rfl

/-- Witness for C4: the hypothesis-bearing parts applied to concrete
non-object and non-array inputs, and the shape-equivalence part at a
one-frame list. -/
theorem claim_C4_frame_shapes_witness :
    (∃ e, Frame.fromJson (.str "x") = .error e) ∧
    deserialize_frames (.num 3) = .error .malformedShape ∧
    (deserialize_frames (.arr ([("a", df0)].map fun p => Frame.toJson ⟨p.1, p.2⟩)) =
      .ok ([("a", df0)].map fun p => ⟨p.1, p.2⟩) ∧
     deserialize_frames (.obj ([("a", df0)].map fun p => (p.1, FrameData.toJson p.2))) =
      .ok ([("a", df0)].map fun p => ⟨p.1, p.2⟩)) :=
  ⟨claim_C4_frame_shapes.2.1 (.str "x") (fun fs => by simp),
   claim_C4_frame_shapes.2.2.2.2 (.num 3) (fun xs => by simp) (fun fs => by simp),
   claim_C4_frame_shapes.2.2.2.1 [("a", df0)]⟩

/-! ## Metadata defaulting (C5) -/

/-- Decoding a `meta` object that carries only the five mandatory keys:
`image` falls back to `none` and the three lists to `[]`. -/
theorem Metadata.fromFields_minimal (j1 j2 j3 j4 j5 : Json)
    (ap ve fo : String) (si : Dimensions) (sc : String)
    (h1 : decodeStr j1 = .ok ap) (h2 : decodeStr j2 = .ok ve)
    (h3 : decodeStr j3 = .ok fo) (h4 : Dimensions.fromJson j4 = .ok si)
    (h5 : decodeStr j5 = .ok sc) :
    Metadata.fromFields
      [("app", j1), ("version", j2), ("format", j3), ("size", j4), ("scale", j5)] =
      .ok ⟨ap, ve, fo, si, sc, none, [], [], []⟩ := by
  simp [Metadata.fromFields, foldFields, Metadata.step, setField, requireField,
    optionalField, defaultListField, h1, h2, h3, h4, h5, Except.map, Except.map_ok,
    Except.bind, Bind.bind, Except.pure, pure]

/-- A failing `frameTags` array aborts the whole `Metadata` decode. -/
theorem Metadata.fromFields_frameTags_err (j1 j2 j3 j4 j5 : Json)
    (ap ve fo : String) (si : Dimensions) (sc : String)
    (h1 : decodeStr j1 = .ok ap) (h2 : decodeStr j2 = .ok ve)
    (h3 : decodeStr j3 = .ok fo) (h4 : Dimensions.fromJson j4 = .ok si)
    (h5 : decodeStr j5 = .ok sc) (elems : List Json) (e : DError)
    (he : mapMExcept Frametag.fromJson elems = .error e) :
    Metadata.fromFields
      [("app", j1), ("version", j2), ("format", j3), ("size", j4), ("scale", j5),
       ("frameTags", .arr elems)] = .error e := by
  simp [Metadata.fromFields, foldFields, Metadata.step, setField, requireField,
    decodeVec, h1, h2, h3, h4, h5, he, Except.map, Except.map_ok, Except.bind,
    Bind.bind, Except.pure, pure]

/-- A failing `layers` array aborts the whole `Metadata` decode. -/
theorem Metadata.fromFields_layers_err (j1 j2 j3 j4 j5 : Json)
    (ap ve fo : String) (si : Dimensions) (sc : String)
    (h1 : decodeStr j1 = .ok ap) (h2 : decodeStr j2 = .ok ve)
    (h3 : decodeStr j3 = .ok fo) (h4 : Dimensions.fromJson j4 = .ok si)
    (h5 : decodeStr j5 = .ok sc) (elems : List Json) (e : DError)
    (he : mapMExcept Layer.fromJson elems = .error e) :
    Metadata.fromFields
      [("app", j1), ("version", j2), ("format", j3), ("size", j4), ("scale", j5),
       ("layers", .arr elems)] = .error e := by
  simp [Metadata.fromFields, foldFields, Metadata.step, setField, requireField,
    decodeVec, h1, h2, h3, h4, h5, he, Except.map, Except.map_ok, Except.bind,
    Bind.bind, Except.pure, pure]

/-- A failing `slices` array aborts the whole `Metadata` decode. -/
theorem Metadata.fromFields_slices_err (j1 j2 j3 j4 j5 : Json)
    (ap ve fo : String) (si : Dimensions) (sc : String)
    (h1 : decodeStr j1 = .ok ap) (h2 : decodeStr j2 = .ok ve)
    (h3 : decodeStr j3 = .ok fo) (h4 : Dimensions.fromJson j4 = .ok si)
    (h5 : decodeStr j5 = .ok sc) (elems : List Json) (e : DError)
    (he : mapMExcept Slice.fromJson elems = .error e) :
    Metadata.fromFields
      [("app", j1), ("version", j2), ("format", j3), ("size", j4), ("scale", j5),
       ("slices", .arr elems)] = .error e := by
  simp [Metadata.fromFields, foldFields, Metadata.step, setField, requireField,
    decodeVec, h1, h2, h3, h4, h5, he, Except.map, Except.map_ok, Except.bind,
    Bind.bind, Except.pure, pure]

/-- C5: a `meta` object with only `app`, `version`, `format`, `size`,
`scale` decodes successfully, with `frameTags`, `layers`, `slices` empty and
`image` `none`; and when one of those list keys is present and non-empty,
the failure of any single element's decode fails the whole `Metadata`
decode — no partial lists. -/
theorem claim_C5_meta_defaults :
    (∀ (ap ve fo sc : String) (w h : U32),
      Metadata.fromJson (.obj
        [("app", .str ap), ("version", .str ve), ("format", .str fo),
         ("size", .obj [("w", .num w.val), ("h", .num h.val)]), ("scale", .str sc)]) =
        .ok ⟨ap, ve, fo, ⟨w, h⟩, sc, none, [], [], []⟩) ∧
    (∀ (ap ve fo sc : String) (w h : U32) (elems : List Json) (j : Json), j ∈ elems →
      (∃ e, Frametag.fromJson j = .error e) →
      ∃ e, Metadata.fromJson (.obj
        [("app", .str ap), ("version", .str ve), ("format", .str fo),
         ("size", .obj [("w", .num w.val), ("h", .num h.val)]), ("scale", .str sc),
         ("frameTags", .arr elems)]) = .error e) ∧
    (∀ (ap ve fo sc : String) (w h : U32) (elems : List Json) (j : Json), j ∈ elems →
      (∃ e, Layer.fromJson j = .error e) →
      ∃ e, Metadata.fromJson (.obj
        [("app", .str ap), ("version", .str ve), ("format", .str fo),
         ("size", .obj [("w", .num w.val), ("h", .num h.val)]), ("scale", .str sc),
         ("layers", .arr elems)]) = .error e) ∧
    (∀ (ap ve fo sc : String) (w h : U32) (elems : List Json) (j : Json), j ∈ elems →
      (∃ e, Slice.fromJson j = .error e) →
      ∃ e, Metadata.fromJson (.obj
        [("app", .str ap), ("version", .str ve), ("format", .str fo),
         ("size", .obj [("w", .num w.val), ("h", .num h.val)]), ("scale", .str sc),
         ("slices", .arr elems)]) = .error e) := by
  refine ⟨fun ap ve fo sc w h => ?_, fun ap ve fo sc w h elems j hj ⟨e, he⟩ => ?_,
    fun ap ve fo sc w h elems j hj ⟨e, he⟩ => ?_,
    fun ap ve fo sc w h elems j hj ⟨e, he⟩ => ?_⟩
  · exact Metadata.fromFields_minimal _ _ _ _ _ _ _ _ _ _ rfl rfl rfl
      (Dimensions.dims_canon _ _ _ _ (decodeU32_num w) (decodeU32_num h)) rfl
  · obtain ⟨eo, heo⟩ := mapMExcept_err Frametag.fromJson elems j hj e he
    exact ⟨eo, Metadata.fromFields_frameTags_err (.str ap) (.str ve) (.str fo)
      (.obj [("w", .num w.val), ("h", .num h.val)]) (.str sc) ap ve fo ⟨w, h⟩ sc
      rfl rfl rfl
      (Dimensions.dims_canon (.num w.val) (.num h.val) w h
        (decodeU32_num w) (decodeU32_num h)) rfl elems eo heo⟩
  · obtain ⟨eo, heo⟩ := mapMExcept_err Layer.fromJson elems j hj e he
    exact ⟨eo, Metadata.fromFields_layers_err (.str ap) (.str ve) (.str fo)
      (.obj [("w", .num w.val), ("h", .num h.val)]) (.str sc) ap ve fo ⟨w, h⟩ sc
      rfl rfl rfl
      (Dimensions.dims_canon (.num w.val) (.num h.val) w h
        (decodeU32_num w) (decodeU32_num h)) rfl elems eo heo⟩
  · obtain ⟨eo, heo⟩ := mapMExcept_err Slice.fromJson elems j hj e he
    exact ⟨eo, Metadata.fromFields_slices_err (.str ap) (.str ve) (.str fo)
      (.obj [("w", .num w.val), ("h", .num h.val)]) (.str sc) ap ve fo ⟨w, h⟩ sc
      rfl rfl rfl
      (Dimensions.dims_canon (.num w.val) (.num h.val) w h
        (decodeU32_num w) (decodeU32_num h)) rfl elems eo heo⟩

/-- Witness for C5: a failing element (`null` is no valid tag, layer or
slice object) in each list aborts each decode. -/
theorem claim_C5_meta_defaults_witness :
    (∃ e, Metadata.fromJson (.obj
      [("app", .str "a"), ("version", .str "v"), ("format", .str "f"),
       ("size", .obj [("w", .num 1), ("h", .num 1)]), ("scale", .str "1"),
       ("frameTags", .arr [.null])]) = .error e) ∧
    (∃ e, Metadata.fromJson (.obj
      [("app", .str "a"), ("version", .str "v"), ("format", .str "f"),
       ("size", .obj [("w", .num 1), ("h", .num 1)]), ("scale", .str "1"),
       ("layers", .arr [.null])]) = .error e) ∧
    (∃ e, Metadata.fromJson (.obj
      [("app", .str "a"), ("version", .str "v"), ("format", .str "f"),
       ("size", .obj [("w", .num 1), ("h", .num 1)]), ("scale", .str "1"),
       ("slices", .arr [.null])]) = .error e) :=
  ⟨claim_C5_meta_defaults.2.1 "a" "v" "f" "1" 1 1 [.null] .null (by simp)
     ⟨.typeMismatch, rfl⟩,
   claim_C5_meta_defaults.2.2.1 "a" "v" "f" "1" 1 1 [.null] .null (by simp)
     ⟨.typeMismatch, rfl⟩,
   claim_C5_meta_defaults.2.2.2 "a" "v" "f" "1" 1 1 [.null] .null (by simp)
     ⟨.typeMismatch, rfl⟩⟩

/-! ## Unknown keys are ignored (C8) -/

/-- Inserting an entry the step function treats as a no-op anywhere in the
entry list leaves the fold unchanged. -/
theorem foldFields_insert (step : σ → String × Json → DResult σ) (k : String) (v : Json)
    (hk : ∀ st, step st (k, v) = .ok st) (pre suf : List (String × Json)) :
    ∀ st, foldFields step st (pre ++ (k, v) :: suf) = foldFields step st (pre ++ suf) := by
  induction pre with
  | nil =>
    intro st
    simp only [List.nil_append, foldFields, hk]
  | cons kv rest ih =>
    intro st
    simp only [List.cons_append, foldFields]
    cases step st kv
    · rfl
    · exact ih _

/-- `Rect.step` skips keys other than `x`, `y`, `w`, `h`. -/
theorem Rect.rect_step_unknown (st : RectP) (k : String) (v : Json)
    (hk : k ∉ (["x", "y", "w", "h"] : List String)) : Rect.step st (k, v) = .ok st := by
  simp only [List.mem_cons, List.not_mem_nil, or_false, not_or] at hk
  simp [Rect.step, hk.1, hk.2.1, hk.2.2.1, hk.2.2.2]

/-- Unknown keys do not change a `Rect` decode. -/
theorem Rect.rect_insert (k : String) (v : Json)
    (hk : k ∉ (["x", "y", "w", "h"] : List String)) (pre suf : List (String × Json)) :
    Rect.fromJson (.obj (pre ++ (k, v) :: suf)) = Rect.fromJson (.obj (pre ++ suf)) := by
  show Rect.fromFields (pre ++ (k, v) :: suf) = Rect.fromFields (pre ++ suf)
  unfold Rect.fromFields
  rw [foldFields_insert Rect.step k v (fun st => Rect.rect_step_unknown st k v hk) pre suf]

/-- `Point.step` skips keys other than `x`, `y`. -/
theorem Point.point_step_unknown (st : PointP) (k : String) (v : Json)
    (hk : k ∉ (["x", "y"] : List String)) : Point.step st (k, v) = .ok st := by
  simp only [List.mem_cons, List.not_mem_nil, or_false, not_or] at hk
  simp [Point.step, hk.1, hk.2]

/-- Unknown keys do not change a `Point` decode. -/
theorem Point.point_insert (k : String) (v : Json)
    (hk : k ∉ (["x", "y"] : List String)) (pre suf : List (String × Json)) :
    Point.fromJson (.obj (pre ++ (k, v) :: suf)) = Point.fromJson (.obj (pre ++ suf)) := by
  show Point.fromFields (pre ++ (k, v) :: suf) = Point.fromFields (pre ++ suf)
  unfold Point.fromFields
  rw [foldFields_insert Point.step k v (fun st => Point.point_step_unknown st k v hk) pre suf]

/-- `Dimensions.step` skips keys other than `w`, `h`. -/
theorem Dimensions.dims_step_unknown (st : DimensionsP) (k : String) (v : Json)
    (hk : k ∉ (["w", "h"] : List String)) : Dimensions.step st (k, v) = .ok st := by
  simp only [List.mem_cons, List.not_mem_nil, or_false, not_or] at hk
  simp [Dimensions.step, hk.1, hk.2]

/-- Unknown keys do not change a `Dimensions` decode. -/
theorem Dimensions.dims_insert (k : String) (v : Json)
    (hk : k ∉ (["w", "h"] : List String)) (pre suf : List (String × Json)) :
    Dimensions.fromJson (.obj (pre ++ (k, v) :: suf)) =
      Dimensions.fromJson (.obj (pre ++ suf)) := by
  show Dimensions.fromFields (pre ++ (k, v) :: suf) = Dimensions.fromFields (pre ++ suf)
  unfold Dimensions.fromFields
  rw [foldFields_insert Dimensions.step k v
    (fun st => Dimensions.dims_step_unknown st k v hk) pre suf]

/-- `FrameData.step` skips keys other than its six field keys. -/
theorem FrameData.framedata_step_unknown (st : FrameDataP) (k : String) (v : Json)
    (hk : k ∉ (["frame", "rotated", "trimmed", "spriteSourceSize", "sourceSize",
      "duration"] : List String)) : FrameData.step st (k, v) = .ok st := by
  simp only [List.mem_cons, List.not_mem_nil, or_false, not_or] at hk
  simp [FrameData.step, hk.1, hk.2.1, hk.2.2.1, hk.2.2.2.1, hk.2.2.2.2.1, hk.2.2.2.2.2]

/-- Unknown keys do not change a `FrameData` field-list decode. -/
theorem FrameData.fromFields_insert (k : String) (v : Json)
    (hk : k ∉ (["frame", "rotated", "trimmed", "spriteSourceSize", "sourceSize",
      "duration"] : List String)) (pre suf : List (String × Json)) :
    FrameData.fromFields (pre ++ (k, v) :: suf) = FrameData.fromFields (pre ++ suf) := by
  unfold FrameData.fromFields
  rw [foldFields_insert FrameData.step k v
    (fun st => FrameData.framedata_step_unknown st k v hk) pre suf]

/-- Unknown keys do not change a standalone `FrameData` decode. -/
theorem FrameData.framedata_insert (k : String) (v : Json)
    (hk : k ∉ (["frame", "rotated", "trimmed", "spriteSourceSize", "sourceSize",
      "duration"] : List String)) (pre suf : List (String × Json)) :
    FrameData.fromJson (.obj (pre ++ (k, v) :: suf)) =
      FrameData.fromJson (.obj (pre ++ suf)) :=
  FrameData.fromFields_insert k v hk pre suf

/-- `Frametag.step` skips keys other than its four field keys. -/
theorem Frametag.frametag_step_unknown (st : FrametagP) (k : String) (v : Json)
    (hk : k ∉ (["name", "from", "to", "direction"] : List String)) :
    Frametag.step st (k, v) = .ok st := by
  simp only [List.mem_cons, List.not_mem_nil, or_false, not_or] at hk
  simp [Frametag.step, hk.1, hk.2.1, hk.2.2.1, hk.2.2.2]

/-- Unknown keys do not change a `Frametag` decode. -/
theorem Frametag.frametag_insert (k : String) (v : Json)
    (hk : k ∉ (["name", "from", "to", "direction"] : List String))
    (pre suf : List (String × Json)) :
    Frametag.fromJson (.obj (pre ++ (k, v) :: suf)) =
      Frametag.fromJson (.obj (pre ++ suf)) := by
  show Frametag.fromFields (pre ++ (k, v) :: suf) = Frametag.fromFields (pre ++ suf)
  unfold Frametag.fromFields
  rw [foldFields_insert Frametag.step k v
    (fun st => Frametag.frametag_step_unknown st k v hk) pre suf]

/-- `Layer.step` skips keys other than its six field keys. -/
theorem Layer.layer_step_unknown (st : LayerP) (k : String) (v : Json)
    (hk : k ∉ (["name", "group", "opacity", "blendMode", "color", "data"] : List String)) :
    Layer.step st (k, v) = .ok st := by
  simp only [List.mem_cons, List.not_mem_nil, or_false, not_or] at hk
  simp [Layer.step, hk.1, hk.2.1, hk.2.2.1, hk.2.2.2.1, hk.2.2.2.2.1, hk.2.2.2.2.2]

/-- Unknown keys do not change a `Layer` decode. -/
theorem Layer.layer_insert (k : String) (v : Json)
    (hk : k ∉ (["name", "group", "opacity", "blendMode", "color", "data"] : List String))
    (pre suf : List (String × Json)) :
    Layer.fromJson (.obj (pre ++ (k, v) :: suf)) = Layer.fromJson (.obj (pre ++ suf)) := by
  show Layer.fromFields (pre ++ (k, v) :: suf) = Layer.fromFields (pre ++ suf)
  unfold Layer.fromFields
  rw [foldFields_insert Layer.step k v (fun st => Layer.layer_step_unknown st k v hk) pre suf]

/-- `SliceKey.step` skips keys other than its four field keys. -/
theorem SliceKey.slicekey_step_unknown (st : SliceKeyP) (k : String) (v : Json)
    (hk : k ∉ (["frame", "bounds", "pivot", "center"] : List String)) :
    SliceKey.step st (k, v) = .ok st := by
  simp only [List.mem_cons, List.not_mem_nil, or_false, not_or] at hk
  simp [SliceKey.step, hk.1, hk.2.1, hk.2.2.1, hk.2.2.2]

/-- Unknown keys do not change a `SliceKey` decode. -/
theorem SliceKey.slicekey_insert (k : String) (v : Json)
    (hk : k ∉ (["frame", "bounds", "pivot", "center"] : List String))
    (pre suf : List (String × Json)) :
    SliceKey.fromJson (.obj (pre ++ (k, v) :: suf)) =
      SliceKey.fromJson (.obj (pre ++ suf)) := by
  show SliceKey.fromFields (pre ++ (k, v) :: suf) = SliceKey.fromFields (pre ++ suf)
  unfold SliceKey.fromFields
  rw [foldFields_insert SliceKey.step k v
    (fun st => SliceKey.slicekey_step_unknown st k v hk) pre suf]

/-- `Slice.step` skips keys other than its four field keys. -/
theorem Slice.slice_step_unknown (st : SliceP) (k : String) (v : Json)
    (hk : k ∉ (["name", "color", "keys", "data"] : List String)) :
    Slice.step st (k, v) = .ok st := by
  simp only [List.mem_cons, List.not_mem_nil, or_false, not_or] at hk
  simp [Slice.step, hk.1, hk.2.1, hk.2.2.1, hk.2.2.2]

/-- Unknown keys do not change a `Slice` decode. -/
theorem Slice.slice_insert (k : String) (v : Json)
    (hk : k ∉ (["name", "color", "keys", "data"] : List String))
    (pre suf : List (String × Json)) :
    Slice.fromJson (.obj (pre ++ (k, v) :: suf)) = Slice.fromJson (.obj (pre ++ suf)) := by
  show Slice.fromFields (pre ++ (k, v) :: suf) = Slice.fromFields (pre ++ suf)
  unfold Slice.fromFields
  rw [foldFields_insert Slice.step k v (fun st => Slice.slice_step_unknown st k v hk) pre suf]

/-- `Metadata.step` skips keys other than its nine field keys. -/
theorem Metadata.metadata_step_unknown (st : MetadataP) (k : String) (v : Json)
    (hk : k ∉ (["app", "version", "format", "size", "scale", "image", "frameTags",
      "layers", "slices"] : List String)) : Metadata.step st (k, v) = .ok st := by
  simp only [List.mem_cons, List.not_mem_nil, or_false, not_or] at hk
  simp [Metadata.step, hk.1, hk.2.1, hk.2.2.1, hk.2.2.2.1, hk.2.2.2.2.1, hk.2.2.2.2.2.1,
    hk.2.2.2.2.2.2.1, hk.2.2.2.2.2.2.2.1, hk.2.2.2.2.2.2.2.2]

/-- Unknown keys do not change a `Metadata` decode. -/
theorem Metadata.metadata_insert (k : String) (v : Json)
    (hk : k ∉ (["app", "version", "format", "size", "scale", "image", "frameTags",
      "layers", "slices"] : List String)) (pre suf : List (String × Json)) :
    Metadata.fromJson (.obj (pre ++ (k, v) :: suf)) =
      Metadata.fromJson (.obj (pre ++ suf)) := by
  show Metadata.fromFields (pre ++ (k, v) :: suf) = Metadata.fromFields (pre ++ suf)
  unfold Metadata.fromFields
  rw [foldFields_insert Metadata.step k v
    (fun st => Metadata.metadata_step_unknown st k v hk) pre suf]

/-- `SpritesheetData.step` skips keys other than `frames` and `meta`. -/
theorem SpritesheetData.spritesheet_step_unknown (st : SpritesheetP) (k : String) (v : Json)
    (hk : k ∉ (["frames", "meta"] : List String)) :
    SpritesheetData.step st (k, v) = .ok st := by
  simp only [List.mem_cons, List.not_mem_nil, or_false, not_or] at hk
  simp [SpritesheetData.step, hk.1, hk.2]

/-- Unknown keys do not change the whole-document decode. -/
theorem SpritesheetData.spritesheet_insert (k : String) (v : Json)
    (hk : k ∉ (["frames", "meta"] : List String)) (pre suf : List (String × Json)) :
    SpritesheetData.fromJson (.obj (pre ++ (k, v) :: suf)) =
      SpritesheetData.fromJson (.obj (pre ++ suf)) := by
  show SpritesheetData.fromFields (pre ++ (k, v) :: suf) =
    SpritesheetData.fromFields (pre ++ suf)
  unfold SpritesheetData.fromFields
  rw [foldFields_insert SpritesheetData.step k v
    (fun st => SpritesheetData.spritesheet_step_unknown st k v hk) pre suf]

/-- `Frame.step` on a `filename` entry updates only the filename slot. -/
theorem Frame.step_filename (st : FrameP) (kv : String × Json) (hkv : kv.1 = "filename") :
    Frame.step st kv =
      (setField st.filename "filename" decodeStr kv.2).map (fun o => ⟨o, st.buffer⟩) := by
  simp [Frame.step, hkv]

/-- `Frame.step` on any other entry appends it to the flatten buffer. -/
theorem Frame.step_other (st : FrameP) (kv : String × Json) (hkv : kv.1 ≠ "filename") :
    Frame.step st kv = .ok ⟨st.filename, st.buffer ++ [kv]⟩ := by
  simp [Frame.step, hkv]

/-- Running the `Frame` fold from two states whose buffers differ by one
entry in the middle: both runs agree on errors and on the filename, and the
final buffers still differ exactly by that entry. -/
theorem Frame.fold_buffer (l : List (String × Json)) : ∀ (fn : Option String)
    (b c : List (String × Json)) (mid : String × Json),
    (∃ e, foldFields Frame.step ⟨fn, b ++ mid :: c⟩ l = .error e ∧
          foldFields Frame.step ⟨fn, b ++ c⟩ l = .error e) ∨
    (∃ fn2 b2 c2,
      foldFields Frame.step ⟨fn, b ++ mid :: c⟩ l = .ok ⟨fn2, b2 ++ mid :: c2⟩ ∧
      foldFields Frame.step ⟨fn, b ++ c⟩ l = .ok ⟨fn2, b2 ++ c2⟩) := by
  induction l with
  | nil =>
    intro fn b c mid
    exact .inr ⟨fn, b, c, rfl, rfl⟩
  | cons kv rest ih =>
    intro fn b c mid
    by_cases hkv : kv.1 = "filename"
    · cases hsf : setField fn "filename" decodeStr kv.2 with
      | error e =>
        refine .inl ⟨e, ?_, ?_⟩ <;>
          simp [foldFields, Frame.step_filename _ _ hkv, hsf, Except.map]
      | ok o =>
        have e1 : ∀ buf, foldFields Frame.step ⟨fn, buf⟩ (kv :: rest) =
            foldFields Frame.step ⟨o, buf⟩ rest := fun buf => by
          simp [foldFields, Frame.step_filename _ _ hkv, hsf, Except.map]
        rw [e1, e1]
        exact ih o b c mid
    · have e1 : ∀ buf, foldFields Frame.step ⟨fn, buf⟩ (kv :: rest) =
          foldFields Frame.step ⟨fn, buf ++ [kv]⟩ rest := fun buf => by
        simp [foldFields, Frame.step_other _ _ hkv]
      rw [e1, e1, List.append_assoc, List.append_assoc, List.cons_append]
      exact ih fn b (c ++ [kv]) mid

/-- Inserting a non-`filename` entry into a `Frame` object: both folds agree
on errors and the filename; the buffers differ exactly by that entry. -/
theorem Frame.fold_insert (k : String) (v : Json) (hk : k ≠ "filename")
    (pre suf : List (String × Json)) : ∀ (fn : Option String) (buf : List (String × Json)),
    (∃ e, foldFields Frame.step ⟨fn, buf⟩ (pre ++ (k, v) :: suf) = .error e ∧
          foldFields Frame.step ⟨fn, buf⟩ (pre ++ suf) = .error e) ∨
    (∃ fn2 b2 c2,
      foldFields Frame.step ⟨fn, buf⟩ (pre ++ (k, v) :: suf) = .ok ⟨fn2, b2 ++ (k, v) :: c2⟩ ∧
      foldFields Frame.step ⟨fn, buf⟩ (pre ++ suf) = .ok ⟨fn2, b2 ++ c2⟩) := by
  induction pre with
  | nil =>
    intro fn buf
    have e1 : foldFields Frame.step ⟨fn, buf⟩ ((k, v) :: suf) =
        foldFields Frame.step ⟨fn, buf ++ [(k, v)]⟩ suf := by
      simp [foldFields,
        Frame.step_other _ _ (show ((k, v) : String × Json).1 ≠ "filename" from hk)]
    rw [List.nil_append, List.nil_append, e1]
    have hb := Frame.fold_buffer suf fn buf [] (k, v)
    rw [List.append_nil] at hb
    exact hb
  | cons kv rest ih =>
    intro fn buf
    by_cases hkv : kv.1 = "filename"
    · cases hsf : setField fn "filename" decodeStr kv.2 with
      | error e =>
        refine .inl ⟨e, ?_, ?_⟩ <;>
          simp [foldFields, Frame.step_filename _ _ hkv, hsf, Except.map, List.cons_append]
      | ok o =>
        have e1 : ∀ l, foldFields Frame.step ⟨fn, buf⟩ (kv :: l) =
            foldFields Frame.step ⟨o, buf⟩ l := fun l => by
          simp [foldFields, Frame.step_filename _ _ hkv, hsf, Except.map]
        rw [List.cons_append, List.cons_append, e1, e1]
        exact ih o buf
    · have e1 : ∀ l, foldFields Frame.step ⟨fn, buf⟩ (kv :: l) =
          foldFields Frame.step ⟨fn, buf ++ [kv]⟩ l := fun l => by
        simp [foldFields, Frame.step_other _ _ hkv]
      rw [List.cons_append, List.cons_append, e1, e1]
      exact ih fn (buf ++ [kv])

/-- Unknown keys do not change a `Frame` decode: a key that is neither
`filename` nor one of the `FrameData` keys is buffered and then ignored by
the flattened `FrameData` decoder. -/
theorem Frame.frame_insert (k : String) (v : Json)
    (hk : k ∉ (["filename", "frame", "rotated", "trimmed", "spriteSourceSize",
      "sourceSize", "duration"] : List String)) (pre suf : List (String × Json)) :
    Frame.fromJson (.obj (pre ++ (k, v) :: suf)) = Frame.fromJson (.obj (pre ++ suf)) := by
  have hk1 : k ≠ "filename" := by
    intro h
    exact hk (h ▸ List.mem_cons_self _ _)
  have hkfd : k ∉ (["frame", "rotated", "trimmed", "spriteSourceSize", "sourceSize",
      "duration"] : List String) := by
    intro h
    exact hk (List.mem_cons_of_mem _ h)
  rcases Frame.fold_insert k v hk1 pre suf none [] with ⟨e, h1, h2⟩ | ⟨fn2, b2, c2, h1, h2⟩
  · simp only [Frame.fromJson]
    rw [h1, h2]
  · simp only [Frame.fromJson]
    rw [h1, h2]
    simp only [Except.bind, Bind.bind]
    cases requireField "filename" fn2
    · rfl
    · simp only [FrameData.fromFields_insert k v hkfd b2 c2]

/-- C8: inserting an entry with a key the decoder does not recognise, with
any value, at any position of any decoded object — the root, `meta`, a
frame, a tag, a layer, a slice, a slice key, or any geometry object — leaves
that decode result unchanged; in particular unknown keys never fail a
decode. -/
theorem claim_C8_unknown_keys :
    (∀ (k : String) (v : Json) (pre suf : List (String × Json)),
      k ∉ (["frames", "meta"] : List String) →
      SpritesheetData.fromJson (.obj (pre ++ (k, v) :: suf)) =
        SpritesheetData.fromJson (.obj (pre ++ suf))) ∧
    (∀ (k : String) (v : Json) (pre suf : List (String × Json)),
      k ∉ (["app", "version", "format", "size", "scale", "image", "frameTags",
        "layers", "slices"] : List String) →
      Metadata.fromJson (.obj (pre ++ (k, v) :: suf)) =
        Metadata.fromJson (.obj (pre ++ suf))) ∧
    (∀ (k : String) (v : Json) (pre suf : List (String × Json)),
      k ∉ (["filename", "frame", "rotated", "trimmed", "spriteSourceSize", "sourceSize",
        "duration"] : List String) →
      Frame.fromJson (.obj (pre ++ (k, v) :: suf)) = Frame.fromJson (.obj (pre ++ suf))) ∧
    (∀ (k : String) (v : Json) (pre suf : List (String × Json)),
      k ∉ (["frame", "rotated", "trimmed", "spriteSourceSize", "sourceSize",
        "duration"] : List String) →
      FrameData.fromJson (.obj (pre ++ (k, v) :: suf)) =
        FrameData.fromJson (.obj (pre ++ suf))) ∧
    (∀ (k : String) (v : Json) (pre suf : List (String × Json)),
      k ∉ (["name", "from", "to", "direction"] : List String) →
      Frametag.fromJson (.obj (pre ++ (k, v) :: suf)) =
        Frametag.fromJson (.obj (pre ++ suf))) ∧
    (∀ (k : String) (v : Json) (pre suf : List (String × Json)),
      k ∉ (["name", "group", "opacity", "blendMode", "color", "data"] : List String) →
      Layer.fromJson (.obj (pre ++ (k, v) :: suf)) = Layer.fromJson (.obj (pre ++ suf))) ∧
    (∀ (k : String) (v : Json) (pre suf : List (String × Json)),
      k ∉ (["name", "color", "keys", "data"] : List String) →
      Slice.fromJson (.obj (pre ++ (k, v) :: suf)) = Slice.fromJson (.obj (pre ++ suf))) ∧
    (∀ (k : String) (v : Json) (pre suf : List (String × Json)),
      k ∉ (["frame", "bounds", "pivot", "center"] : List String) →
      SliceKey.fromJson (.obj (pre ++ (k, v) :: suf)) =
        SliceKey.fromJson (.obj (pre ++ suf))) ∧
    (∀ (k : String) (v : Json) (pre suf : List (String × Json)),
      k ∉ (["x", "y", "w", "h"] : List String) →
      Rect.fromJson (.obj (pre ++ (k, v) :: suf)) = Rect.fromJson (.obj (pre ++ suf))) ∧
    (∀ (k : String) (v : Json) (pre suf : List (String × Json)),
      k ∉ (["x", "y"] : List String) →
      Point.fromJson (.obj (pre ++ (k, v) :: suf)) = Point.fromJson (.obj (pre ++ suf))) ∧
    (∀ (k : String) (v : Json) (pre suf : List (String × Json)),
      k ∉ (["w", "h"] : List String) →
      Dimensions.fromJson (.obj (pre ++ (k, v) :: suf)) =
        Dimensions.fromJson (.obj (pre ++ suf))) :=
  ⟨fun k v pre suf hk => SpritesheetData.spritesheet_insert k v hk pre suf,
   fun k v pre suf hk => Metadata.metadata_insert k v hk pre suf,
   fun k v pre suf hk => Frame.frame_insert k v hk pre suf,
   fun k v pre suf hk => FrameData.framedata_insert k v hk pre suf,
   fun k v pre suf hk => Frametag.frametag_insert k v hk pre suf,
   fun k v pre suf hk => Layer.layer_insert k v hk pre suf,
   fun k v pre suf hk => Slice.slice_insert k v hk pre suf,
   fun k v pre suf hk => SliceKey.slicekey_insert k v hk pre suf,
   fun k v pre suf hk => Rect.rect_insert k v hk pre suf,
   fun k v pre suf hk => Point.point_insert k v hk pre suf,
   fun k v pre suf hk => Dimensions.dims_insert k v hk pre suf⟩

/-- Witness for C8: a `futureField` entry inserted into concrete root,
`meta`, frame, layer and rectangle objects changes nothing. -/
theorem claim_C8_unknown_keys_witness :
    SpritesheetData.fromJson
        (.obj [("futureField", .num 1), ("frames", .arr []), ("meta", .null)]) =
      SpritesheetData.fromJson (.obj [("frames", .arr []), ("meta", .null)]) ∧
    Metadata.fromJson (.obj [("app", .str "a"), ("futureField", .num 1)]) =
      Metadata.fromJson (.obj [("app", .str "a")]) ∧
    Frame.fromJson (.obj [("filename", .str "f"), ("futureField", .num 1)]) =
      Frame.fromJson (.obj [("filename", .str "f")]) ∧
    Layer.fromJson (.obj [("name", .str "L"), ("futureField", .num 1)]) =
      Layer.fromJson (.obj [("name", .str "L")]) ∧
    Rect.fromJson (.obj [("x", .num 1), ("futureField", .num 1), ("y", .num 2),
        ("w", .num 3), ("h", .num 4)]) =
      Rect.fromJson (.obj [("x", .num 1), ("y", .num 2), ("w", .num 3), ("h", .num 4)]) :=
  ⟨claim_C8_unknown_keys.1 "futureField" (.num 1) []
     [("frames", .arr []), ("meta", .null)] (by decide),
   claim_C8_unknown_keys.2.1 "futureField" (.num 1) [("app", .str "a")] [] (by decide),
   claim_C8_unknown_keys.2.2.1 "futureField" (.num 1) [("filename", .str "f")] []
     (by decide),
   claim_C8_unknown_keys.2.2.2.2.2.1 "futureField" (.num 1) [("name", .str "L")] []
     (by decide),
   claim_C8_unknown_keys.2.2.2.2.2.2.2.2.1 "futureField" (.num 1) [("x", .num 1)]
     [("y", .num 2), ("w", .num 3), ("h", .num 4)] (by decide)⟩

end Aseprite